import Mathlib

/-!
# SchoolDriver client-side layer: a shallow embedding

Embeds the stateful pieces of the JavaScript client of `schooldriver-modern`:

* `staticfiles/js/live_analytics.js`  (class `LiveAnalytics`)
* `static/js/admin_charts.js`         (the four `build...Chart` functions)
* `staticfiles/js/dark-mode.js`       (class `DarkModeManager`)
* `static/js/onboarding.js`           (class `OnboardingManager`)

Objects become structures, methods become functions from state to state, and
what a method does to the page (timers, events, DOM writes, storage) is kept
in explicit fields.  JavaScript numbers are rationals; the runtime functions
the code calls but does not define are collected in `Runtime`.
-/

set_option autoImplicit false

/-! ## Runtime builtins -/

/-- Builtins of the JavaScript runtime that the sources call: `Math.sin`,
`Date.prototype.toLocaleTimeString` (as used by `formatTimestamp`) and the
number-to-string conversion of template literals. -/
structure Runtime where
  sin : ℚ → ℚ
  toLocaleTimeString : Int → String
  numberToString : ℚ → String

/-- A runtime used in the worked examples. -/
def exampleRuntime : Runtime :=
  { sin := fun _ => 0
    toLocaleTimeString := fun t => toString t
    numberToString := fun q => toString q }

/-- Truncation toward zero of a rational. -/
def jsTrunc (q : ℚ) : Int :=
  if 0 ≤ q then Rat.floor q else -Rat.floor (-q)

/-- JavaScript `x % y` on numbers: the remainder has the sign of the dividend. -/
def jsRem (x y : ℚ) : ℚ :=
  x - y * (jsTrunc (x / y) : ℚ)

/-- JavaScript `o || d` for an optional number: an absent value and `0` are
falsy, every other number (negative and fractional ones too) is kept. -/
def orDefault (o : Option ℚ) (d : ℚ) : ℚ :=
  match o with
  | some q => if q = 0 then d else q
  | none => d

/-- Truthiness of a timer handle (`if (this.updateTimer)`): `null` and `0` are falsy. -/
def truthyHandle (h : Option Nat) : Bool :=
  match h with
  | some (_ + 1) => true
  | _ => false

/-! ## live_analytics.js -/

/-- Detail of the `dataPointAdded` custom event. -/
structure DataPointAdded where
  value : ℚ
  timestamp : Int
  totalPoints : Nat
deriving DecidableEq

/-- The part of the browser a `LiveAnalytics` instance acts on. -/
structure Page where
  /-- handle the next `setInterval` returns -/
  nextTimer : Nat
  /-- handle the next `requestAnimationFrame` returns -/
  nextFrame : Nat
  /-- active interval timers -/
  intervals : List Nat
  /-- pending animation-frame callbacks -/
  frames : List Nat
  /-- events dispatched on the canvas -/
  events : List DataPointAdded
  /-- number of `new Chart(...)` calls -/
  chartsCreated : Nat
  /-- number of `chart.destroy()` calls -/
  chartsDestroyed : Nat
  /-- number of `chart.update('none')` calls -/
  chartUpdates : Nat
  /-- lines written with `console.log` -/
  console : List String
  /-- lines written with `console.error` -/
  consoleErrors : List String
deriving DecidableEq

/-- The `options` argument of the constructor: each entry is absent or a
number, of either sign. -/
structure Options where
  maxDataPoints : Option ℚ
  updateInterval : Option ℚ
  maxFPS : Option ℚ
deriving DecidableEq

/-- Fields of a `LiveAnalytics` instance whose constructor got past the canvas
guard (lines 17-35), together with the page it acts on. -/
structure LiveAnalytics where
  maxDataPoints : ℚ
  updateInterval : ℚ
  maxFPS : ℚ
  paused : Bool
  dataPoints : List ℚ
  labels : List String
  startTime : Int
  lastFrameTime : ℚ
  frameInterval : ℚ
  updateTimer : Option Nat
  animationFrame : Option Nat
  chart : Option Nat
  page : Page
deriving DecidableEq

/-- What one call of `addDataPoint` reads from the outside: the two
`Date.now()` readings (line 192, then line 164) and the `Math.random()` draw. -/
structure Tick where
  timestamp : Int
  now : Int
  random : ℚ
deriving DecidableEq

namespace LiveAnalytics

/-- `setInterval(this.update, this.updateInterval)` -/
def setInterval (p : Page) : Page × Nat :=
  ({ p with nextTimer := p.nextTimer + 1, intervals := p.intervals ++ [p.nextTimer] }, p.nextTimer)

/-- `clearInterval(handle)` -/
def clearInterval (p : Page) (h : Nat) : Page :=
  { p with intervals := p.intervals.filter (fun x => x != h) }

/-- `requestAnimationFrame(this.animate)` -/
def requestAnimationFrame (p : Page) : Page × Nat :=
  ({ p with nextFrame := p.nextFrame + 1, frames := p.frames ++ [p.nextFrame] }, p.nextFrame)

/-- `cancelAnimationFrame(handle)` -/
def cancelAnimationFrame (p : Page) (h : Nat) : Page :=
  { p with frames := p.frames.filter (fun x => x != h) }

/-- `console.log(line)` -/
def log (p : Page) (line : String) : Page :=
  { p with console := p.console ++ [line] }

/-- `generateDataPoint()` (lines 163-173); `now` is the `Date.now()` reading and
`random` the `Math.random()` draw. -/
def generateDataPoint (R : Runtime) (s : LiveAnalytics) (now : Int) (random : ℚ) : ℚ :=
  let elapsed : ℚ := ((now - s.startTime : Int) : ℚ) / 1000
  let baseValue : ℚ := 50 + R.sin (elapsed / 10) * 20
  let noise : ℚ := (random - 1 / 2) * 10
  let trend : ℚ := elapsed * (1 / 10)
  max 0 (min 100 (baseValue + noise + jsRem trend 40))

/-- `formatTimestamp(timestamp)` (lines 178-186). -/
def formatTimestamp (R : Runtime) (timestamp : Int) : String :=
  R.toLocaleTimeString timestamp

/-- Buffer after `push(x)` followed by the conditional `shift()` of lines 197-204. -/
def pushShift {α : Type} (xs : List α) (x : α) (pushedLen : Nat) (maxDataPoints : ℚ) : List α :=
  if (pushedLen : ℚ) > maxDataPoints then (xs ++ [x]).tail else xs ++ [x]

/-- `addDataPoint()` (lines 191-210). -/
def addDataPoint (R : Runtime) (s : LiveAnalytics) (t : Tick) : LiveAnalytics :=
  let value := generateDataPoint R s t.now t.random
  let timeLabel := formatTimestamp R t.timestamp
  let pushedLen := (s.dataPoints ++ [value]).length
  let dataPoints := pushShift s.dataPoints value pushedLen s.maxDataPoints
  let labels := pushShift s.labels timeLabel pushedLen s.maxDataPoints
  { s with
    dataPoints := dataPoints
    labels := labels
    page := { s.page with
      events := s.page.events ++
        [{ value := value, timestamp := t.timestamp, totalPoints := dataPoints.length }] } }

/-- `update()` (lines 230-234), the `setInterval` callback. -/
def update (R : Runtime) (s : LiveAnalytics) (t : Tick) : LiveAnalytics :=
  if !s.paused then addDataPoint R s t else s

/-- `start()` (lines 239-252). -/
def start (s : LiveAnalytics) : LiveAnalytics :=
  let p0 := if truthyHandle s.updateTimer then clearInterval s.page (s.updateTimer.getD 0) else s.page
  let (p1, timer) := setInterval p0
  let (p2, frame) := requestAnimationFrame p1
  { s with
    updateTimer := some timer
    paused := false
    animationFrame := some frame
    page := log p2 "Live Analytics started" }

/-- `pause()` (lines 257-266). -/
def pause (s : LiveAnalytics) : LiveAnalytics :=
  let s1 := { s with paused := true }
  let s2 :=
    if truthyHandle s1.animationFrame then
      { s1 with
        page := cancelAnimationFrame s1.page (s1.animationFrame.getD 0)
        animationFrame := none }
    else s1
  { s2 with page := log s2.page "Live Analytics paused" }

/-- `resume()` (lines 271-277). -/
def resume (s : LiveAnalytics) : LiveAnalytics :=
  if s.paused then
    let (p1, frame) := requestAnimationFrame s.page
    { s with
      paused := false
      animationFrame := some frame
      page := log p1 "Live Analytics resumed" }
  else s

/-- `toggle()` (lines 282-289): the new state and the returned running flag. -/
def toggle (s : LiveAnalytics) : LiveAnalytics × Bool :=
  let s1 := if s.paused then resume s else pause s
  (s1, !s1.paused)

/-- `initializeChart()` (lines 50-158): `this.chart = new Chart(this.ctx, chartConfig)`. -/
def initializeChart (s : LiveAnalytics) : LiveAnalytics :=
  { s with
    chart := some (s.page.chartsCreated + 1)
    page := { s.page with chartsCreated := s.page.chartsCreated + 1 } }

/-- The constructor (lines 7-45) on a page whose canvas exists; `now` is the
`Date.now()` reading of line 26. -/
def construct (page : Page) (options : Options) (now : Int) : LiveAnalytics :=
  let maxFPS := orDefault options.maxFPS 30
  start (initializeChart
    { maxDataPoints := orDefault options.maxDataPoints 50
      updateInterval := orDefault options.updateInterval 2000
      maxFPS := maxFPS
      paused := false
      dataPoints := []
      labels := []
      startTime := now
      lastFrameTime := 0
      frameInterval := 1000 / maxFPS
      updateTimer := none
      animationFrame := none
      chart := none
      page := page })

/-- Result of `getData()`. -/
structure Data where
  labels : List String
  data : List ℚ
deriving DecidableEq

/-- `getData()` (lines 326-331): copies of both arrays. -/
def getData (s : LiveAnalytics) : Data :=
  { labels := s.labels, data := s.dataPoints }

/-- A method call on an instance, with what the call reads from the outside. -/
inductive Call where
  | addDataPoint (t : Tick)
  | update (t : Tick)
  | pause
  | resume
  | toggle
deriving DecidableEq

/-- Effect of one call. -/
def step (R : Runtime) (s : LiveAnalytics) (c : Call) : LiveAnalytics :=
  match c with
  | Call.addDataPoint t => addDataPoint R s t
  | Call.update t => update R s t
  | Call.pause => pause s
  | Call.resume => resume s
  | Call.toggle => (toggle s).1

/-- Effect of a sequence of calls, oldest first. -/
def run (R : Runtime) (s : LiveAnalytics) (calls : List Call) : LiveAnalytics :=
  calls.foldl (step R) s

/-- Value stored by the insertion that reads `t`. -/
def sampleValue (R : Runtime) (s : LiveAnalytics) (t : Tick) : ℚ :=
  generateDataPoint R s t.now t.random

/-- Label stored by the insertion that reads `t`. -/
def sampleLabel (R : Runtime) (t : Tick) : String :=
  formatTimestamp R t.timestamp

/-- The last `n` entries of a list, in order. -/
def lastN {α : Type} (n : Nat) (xs : List α) : List α :=
  xs.drop (xs.length - n)

/-- The three facts the buffer keeps: a positive capacity, labels and values of
equal length, and at most `maxDataPoints` values. -/
def BufferOk (s : LiveAnalytics) : Prop :=
  0 < s.maxDataPoints ∧ s.labels.length = s.dataPoints.length ∧
    (s.dataPoints.length : ℚ) ≤ s.maxDataPoints

/-- A page on which nothing has happened yet. -/
def emptyPage : Page :=
  { nextTimer := 1
    nextFrame := 1
    intervals := []
    frames := []
    events := []
    chartsCreated := 0
    chartsDestroyed := 0
    chartUpdates := 0
    console := []
    consoleErrors := [] }

/-- An instance constructed with `maxDataPoints: 2` at clock reading 1000. -/
def smallInstance : LiveAnalytics :=
  construct emptyPage { maxDataPoints := some 2, updateInterval := none, maxFPS := none } 1000

/-- An instance constructed with `maxDataPoints: -1` at clock reading 1000. -/
def negativeInstance : LiveAnalytics :=
  construct emptyPage { maxDataPoints := some (-1), updateInterval := none, maxFPS := none } 1000

/-- Three insertions, at clock readings 2000, 3000 and 4000. -/
def threeTicks : List Tick :=
  [ { timestamp := 2000, now := 2000, random := 0 },
    { timestamp := 3000, now := 3001, random := 1 / 2 },
    { timestamp := 4000, now := 4002, random := 9 / 10 } ]

/-- One insertion, at clock reading 5000. -/
def oneTick : Tick :=
  { timestamp := 5000, now := 5000, random := 1 / 2 }

/-- The example instance after the first two of the three insertions: its
buffer, of capacity 2, is full. -/
def fullInstance : LiveAnalytics :=
  (threeTicks.take 2).foldl (addDataPoint exampleRuntime) smallInstance

/-- `animate(currentTime)` (lines 215-225).  `this.chart.update('none')` on an
instance whose chart is `null` throws a `TypeError`. -/
def animate (s : LiveAnalytics) (currentTime : ℚ) : Except String LiveAnalytics :=
  if !s.paused then
    if currentTime - s.lastFrameTime ≥ s.frameInterval then
      match s.chart with
      | none => Except.error "TypeError: Cannot read properties of null (reading 'update')"
      | some _ =>
        let s1 :=
          { s with
            page := { s.page with chartUpdates := s.page.chartUpdates + 1 }
            lastFrameTime := currentTime }
        let (p1, frame) := requestAnimationFrame s1.page
        Except.ok { s1 with animationFrame := some frame, page := p1 }
    else
      let (p1, frame) := requestAnimationFrame s.page
      Except.ok { s with animationFrame := some frame, page := p1 }
  else Except.ok s

/-- A run of `animate` calls at the given times, oldest first: the final
state and the times of the calls that redrew the chart. -/
def animateAll (s : LiveAnalytics) : List ℚ → Except String (LiveAnalytics × List ℚ)
  | [] => Except.ok (s, [])
  | t :: ts =>
    match animate s t with
    | Except.error e => Except.error e
    | Except.ok s1 =>
      match animateAll s1 ts with
      | Except.error e => Except.error e
      | Except.ok (s2, redraws) =>
        Except.ok (s2, if s1.page.chartUpdates > s.page.chartUpdates then t :: redraws else redraws)

/-- `destroy()` (lines 294-308). -/
def destroy (s : LiveAnalytics) : LiveAnalytics :=
  let s1 := pause s
  let s2 :=
    if truthyHandle s1.updateTimer then
      { s1 with
        page := clearInterval s1.page (s1.updateTimer.getD 0)
        updateTimer := none }
    else s1
  let s3 :=
    match s2.chart with
    | some _ =>
      { s2 with
        page := { s2.page with chartsDestroyed := s2.page.chartsDestroyed + 1 }
        chart := none }
    | none => s2
  { s3 with page := log s3.page "Live Analytics destroyed" }

/-- Result of `getStatus()`. -/
structure Status where
  paused : Bool
  dataPoints : Nat
  maxDataPoints : ℚ
  updateInterval : ℚ
  uptime : Int
deriving DecidableEq

/-- `getStatus()` (lines 313-321); `now` is the `Date.now()` reading. -/
def getStatus (s : LiveAnalytics) (now : Int) : Status :=
  { paused := s.paused
    dataPoints := s.dataPoints.length
    maxDataPoints := s.maxDataPoints
    updateInterval := s.updateInterval
    uptime := now - s.startTime }

/-- What can happen to an instance: a method call, or the browser running one
of its callbacks (the animation-frame callback or the interval with the given
handle). -/
inductive TimerEvent where
  | start
  | pause
  | resume
  | toggle
  | destroy
  | frame (handle : Nat) (currentTime : ℚ)
  | tick (handle : Nat) (t : Tick)
deriving DecidableEq

/-- The browser runs the animation-frame callback `handle` at `currentTime`, if
it is pending: the callback leaves the pending list and `animate` runs; an
exception thrown by `animate` ends the callback. -/
def fireFrame (s : LiveAnalytics) (handle : Nat) (currentTime : ℚ) : LiveAnalytics :=
  if s.page.frames.contains handle then
    let s1 := { s with page := cancelAnimationFrame s.page handle }
    match animate s1 currentTime with
    | Except.ok s2 => s2
    | Except.error _ => s1
  else s

/-- The interval `handle` fires, if it is active: `update` runs. -/
def fireInterval (R : Runtime) (s : LiveAnalytics) (handle : Nat) (t : Tick) : LiveAnalytics :=
  if s.page.intervals.contains handle then update R s t else s

/-- Effect of one event. -/
def timerStep (R : Runtime) (s : LiveAnalytics) (e : TimerEvent) : LiveAnalytics :=
  match e with
  | TimerEvent.start => start s
  | TimerEvent.pause => pause s
  | TimerEvent.resume => resume s
  | TimerEvent.toggle => (toggle s).1
  | TimerEvent.destroy => destroy s
  | TimerEvent.frame handle currentTime => fireFrame s handle currentTime
  | TimerEvent.tick handle t => fireInterval R s handle t

/-- Effect of a sequence of events, oldest first. -/
def timerRun (R : Runtime) (s : LiveAnalytics) (events : List TimerEvent) : LiveAnalytics :=
  events.foldl (timerStep R) s

/-- At most one interval is active and it is the one `updateTimer` names; at
most one animation frame is pending and it is the one `animationFrame` names;
a paused instance has no pending frame; the page hands out positive handles. -/
def TimersOk (s : LiveAnalytics) : Prop :=
  0 < s.page.nextTimer ∧ 0 < s.page.nextFrame ∧
  (s.page.intervals = [] ∨ ∃ t, s.updateTimer = some (t + 1) ∧ s.page.intervals = [t + 1]) ∧
  (s.page.frames = [] ∨ ∃ f, s.animationFrame = some (f + 1) ∧ s.page.frames = [f + 1]) ∧
  (s.paused = true → s.page.frames = [])

/-- An instance in service: not paused, both timer handles set, chart present.
Handles returned by `setInterval` and `requestAnimationFrame` are positive. -/
def Running (s : LiveAnalytics) : Prop :=
  s.paused = false ∧ truthyHandle s.updateTimer = true ∧
    truthyHandle s.animationFrame = true ∧ s.chart ≠ none

/-- Neither page has a timer, animation frame, chart or canvas event the other
lacks: the two differ at most in their console lines. -/
def SameTimersAndCharts (p q : Page) : Prop :=
  q.nextTimer = p.nextTimer ∧ q.nextFrame = p.nextFrame ∧ q.intervals = p.intervals ∧
    q.frames = p.frames ∧ q.events = p.events ∧ q.chartsCreated = p.chartsCreated ∧
    q.chartsDestroyed = p.chartsDestroyed ∧ q.chartUpdates = p.chartUpdates

/-- Fields of an instance whose constructor returned at line 14: only `paused`
and `animationFrame` can get a value later (from `pause()` and `resume()`);
the buffers, the configuration, `updateTimer` and `chart` stay `undefined`. -/
structure Disabled where
  paused : Option Bool
  animationFrame : Option Nat
  page : Page
deriving DecidableEq

/-- What `new LiveAnalytics(canvasId, options)` returns. -/
inductive Instance where
  | enabled (s : LiveAnalytics)
  | disabled (d : Disabled)
deriving DecidableEq

/-- `console.error(line)` -/
def logError (p : Page) (line : String) : Page :=
  { p with consoleErrors := p.consoleErrors ++ [line] }

/-- The constructor (lines 7-45).  `canvas` tells whether
`document.getElementById(canvasId)` finds an element and `context` whether its
`getContext('2d')` yields a context. -/
def create (page : Page) (canvasId : String) (canvas context : Bool) (options : Options)
    (now : Int) : Instance :=
  if !canvas || !(canvas && context) then
    Instance.disabled
      { paused := none
        animationFrame := none
        page := logError page ("Canvas element with ID '" ++ canvasId ++ "' not found") }
  else Instance.enabled (construct page options now)

namespace Disabled

/-- `pause()` on a disabled instance. -/
def pause (d : Disabled) : Disabled :=
  let d1 := { d with paused := some true }
  let d2 :=
    if truthyHandle d1.animationFrame then
      { d1 with
        page := cancelAnimationFrame d1.page (d1.animationFrame.getD 0)
        animationFrame := none }
    else d1
  { d2 with page := log d2.page "Live Analytics paused" }

/-- `resume()` on a disabled instance: `undefined` is falsy. -/
def resume (d : Disabled) : Disabled :=
  if d.paused = some true then
    let (p1, frame) := requestAnimationFrame d.page
    { d with
      paused := some false
      animationFrame := some frame
      page := log p1 "Live Analytics resumed" }
  else d

/-- `toggle()` on a disabled instance; `!undefined` is `true`. -/
def toggle (d : Disabled) : Disabled × Bool :=
  let d1 := if d.paused = some true then resume d else pause d
  (d1, !(d1.paused.getD false))

/-- `destroy()` on a disabled instance: `updateTimer` and `chart` are
`undefined`, so only `pause()` and the log line run. -/
def destroy (d : Disabled) : Disabled :=
  let d1 := pause d
  { d1 with page := log d1.page "Live Analytics destroyed" }

/-- `addDataPoint()` on a disabled instance: `this.dataPoints.push(value)` on
`undefined`. -/
def addDataPoint (_d : Disabled) : Except String Disabled :=
  Except.error "TypeError: Cannot read properties of undefined (reading 'push')"

/-- `update()` on a disabled instance: `!undefined` is `true`. -/
def update (d : Disabled) : Except String Disabled :=
  if !(d.paused.getD false) then addDataPoint d else Except.ok d

/-- `getData()` on a disabled instance: `[...this.labels]` on `undefined`. -/
def getData (_d : Disabled) : Except String Data :=
  Except.error "TypeError: this.labels is not iterable"

/-- `getStatus()` on a disabled instance: `this.dataPoints.length` on `undefined`. -/
def getStatus (_d : Disabled) : Except String Status :=
  Except.error "TypeError: Cannot read properties of undefined (reading 'length')"

end Disabled

namespace Instance

/-- `addDataPoint()` on whatever the constructor returned. -/
def addDataPoint (R : Runtime) (i : Instance) (t : Tick) : Except String Instance :=
  match i with
  | enabled s => Except.ok (enabled (LiveAnalytics.addDataPoint R s t))
  | disabled d => (Disabled.addDataPoint d).map disabled

/-- `update()` on whatever the constructor returned. -/
def update (R : Runtime) (i : Instance) (t : Tick) : Except String Instance :=
  match i with
  | enabled s => Except.ok (enabled (LiveAnalytics.update R s t))
  | disabled d => (Disabled.update d).map disabled

/-- `pause()` on whatever the constructor returned. -/
def pause (i : Instance) : Except String Instance :=
  match i with
  | enabled s => Except.ok (enabled (LiveAnalytics.pause s))
  | disabled d => Except.ok (disabled (Disabled.pause d))

/-- `resume()` on whatever the constructor returned. -/
def resume (i : Instance) : Except String Instance :=
  match i with
  | enabled s => Except.ok (enabled (LiveAnalytics.resume s))
  | disabled d => Except.ok (disabled (Disabled.resume d))

/-- `toggle()` on whatever the constructor returned. -/
def toggle (i : Instance) : Except String (Instance × Bool) :=
  match i with
  | enabled s => Except.ok (enabled (LiveAnalytics.toggle s).1, (LiveAnalytics.toggle s).2)
  | disabled d => Except.ok (disabled (Disabled.toggle d).1, (Disabled.toggle d).2)

/-- `destroy()` on whatever the constructor returned. -/
def destroy (i : Instance) : Except String Instance :=
  match i with
  | enabled s => Except.ok (enabled (LiveAnalytics.destroy s))
  | disabled d => Except.ok (disabled (Disabled.destroy d))

/-- `getData()` on whatever the constructor returned. -/
def getData (i : Instance) : Except String Data :=
  match i with
  | enabled s => Except.ok (LiveAnalytics.getData s)
  | disabled d => Disabled.getData d

/-- `getStatus()` on whatever the constructor returned. -/
def getStatus (i : Instance) (now : Int) : Except String Status :=
  match i with
  | enabled s => Except.ok (LiveAnalytics.getStatus s now)
  | disabled d => Disabled.getStatus d

/-- The page the instance acts on. -/
def page (i : Instance) : Page :=
  match i with
  | enabled s => s.page
  | disabled d => d.page

end Instance

/-- The instance the constructor returns when the canvas `missingChart` is
absent from an otherwise empty page. -/
def disabledInstance : Instance :=
  create emptyPage "missingChart" false false
    { maxDataPoints := none, updateInterval := none, maxFPS := none } 1000

end LiveAnalytics

/-! ## admin_charts.js (static/js) -/

/-- `data.pipeline` and `data.status`: a labelled series.  The value list may be
absent, which the builders test for; labels and colours are as supplied. -/
structure Series where
  labels : List String
  values : Option (List ℚ)
  colors : List String
deriving DecidableEq

/-- `data.documents`. -/
structure DocumentSeries where
  labels : List String
  completion_rates : Option (List ℚ)
  colors : List String
deriving DecidableEq

/-- `data.trends`. -/
structure TrendSeries where
  labels : List String
  applications : Option (List ℚ)
  acceptances : List ℚ
deriving DecidableEq

/-- `window.dashboardData`. -/
structure DashboardData where
  pipeline : Series
  documents : DocumentSeries
  status : Series
  trends : TrendSeries
deriving DecidableEq

/-- A colour property of a dataset: one colour, or one per data item. -/
inductive Paint where
  | one (color : String)
  | each (colors : List String)
deriving DecidableEq

/-- One entry of `data.datasets` in a chart configuration. -/
structure ChartDataset where
  label : Option String
  data : List ℚ
  backgroundColor : Paint
  borderColor : Paint
  borderWidth : Option Nat
  fill : Bool
deriving DecidableEq

/-- Which `generateLabels` callback the legend carries. -/
inductive LegendLabels where
  | builtin
  | applicants
  | percent
deriving DecidableEq

/-- The configuration object handed to `new Chart(ctx, config)`; constant
styling entries (padding, font sizes, tension) are left out. -/
structure ChartConfig where
  type : String
  labels : List String
  datasets : List ChartDataset
  dataLabelsPlugin : Bool
  indexAxis : Option String
  legendDisplay : Bool
  legendPosition : Option String
  generateLabels : LegendLabels
  textColor : String
  gridColor : Option String
deriving DecidableEq

/-- What a builder does to the page and to Chart.js, in order. -/
inductive Effect where
  | setContainerHTML (html : String)
  | destroyChart
  | newChart (config : ChartConfig)
deriving DecidableEq

/-- One chart of the dashboard: whether `document.getElementById` finds its
canvas, whether `canvas.closest('.chart-container')` finds an ancestor of that
class, the module-level chart variable, and the effects so far. -/
structure ChartSlot where
  canvas : Bool
  container : Bool
  chart : Option ChartConfig
  trace : List Effect
deriving DecidableEq

/-- Module state of `admin_charts.js`: `pipelineChart, documentsChart,
statusChart, trendsChart` with their canvases. -/
structure AdminCharts where
  pipelineChart : ChartSlot
  documentsChart : ChartSlot
  statusChart : ChartSlot
  trendsChart : ChartSlot
deriving DecidableEq

/-- An entry of the legend returned by `generateLabels`. -/
structure LegendItem where
  text : String
  fillStyle : Option String
  strokeStyle : Option String
  lineWidth : Nat
  hidden : Bool
  index : Nat
deriving DecidableEq

namespace AdminCharts

/-- `getThemeColors(theme)` (lines 112-116): text colour and grid colour. -/
def getThemeColors (theme : String) : String × String :=
  (if theme == "light" then "#333333" else "#e0e0e0",
   if theme == "light" then "rgba(0,0,0,0.1)" else "rgba(255,255,255,0.1)")

/-- The guard `!values || values.length === 0 || values.every(v => v === 0)` of
lines 123, 214-215, 308 and 352-353. -/
def noValues (values : Option (List ℚ)) : Bool :=
  match values with
  | none => true
  | some vs => vs.length == 0 || vs.all (fun v => v == 0)

/-- The message of the `TypeError` thrown by `null.innerHTML = ...`. -/
def noContainerError : String :=
  "TypeError: Cannot set properties of null (setting 'innerHTML')"

/-- `canvas.closest('.chart-container').innerHTML = html` (lines 124, 216, 309,
354).  With an ancestor of class `chart-container` the placeholder is written
into it, which removes the canvas it contained from the document; without one
`closest` returns `null` and the assignment throws, with nothing written. -/
def writePlaceholder (slot : ChartSlot) (html : String) : Except String ChartSlot :=
  if slot.container then
    Except.ok { slot with canvas := false, trace := slot.trace ++ [Effect.setContainerHTML html] }
  else Except.error noContainerError

/-- `if (chart) chart.destroy(); chart = new Chart(canvas.getContext('2d'), config)`. -/
def replaceChart (slot : ChartSlot) (config : ChartConfig) : ChartSlot :=
  { slot with
    chart := some config
    trace := (if slot.chart.isSome then slot.trace ++ [Effect.destroyChart] else slot.trace) ++
      [Effect.newChart config] }

/-- Placeholder markup of `buildPipelineChart` (lines 125-126). -/
def pipelinePlaceholder : String :=
  "<h3 style=\"color: #79aec8; margin-bottom: 10px;\">Admission Pipeline</h3>" ++
  "<p class=\"text-muted text-center mt-5\">No pipeline data available</p>"

/-- Placeholder markup of `buildDocumentsChart` (lines 217-218). -/
def documentsPlaceholder : String :=
  "<h3 style=\"color: #79aec8; margin-bottom: 10px;\">Document Completion</h3>" ++
  "<p class=\"text-muted text-center mt-5\">No document data available</p>"

/-- Placeholder markup of `buildStatusChart` (lines 310-311). -/
def statusPlaceholder : String :=
  "<h3 style=\"color: #79aec8; margin-bottom: 10px;\">Status Distribution</h3>" ++
  "<p class=\"text-muted text-center mt-5\">No status data available</p>"

/-- Placeholder markup of `buildTrendsChart` (lines 355-356). -/
def trendsPlaceholder : String :=
  "<h3 style=\"color: #79aec8; margin-bottom: 10px;\">Monthly Trends</h3>" ++
  "<p class=\"text-muted text-center mt-5\">No trends data available</p>"

/-- The configuration built at lines 134-206. -/
def pipelineConfig (dataset : Series) (theme : String) : ChartConfig :=
  { type := "bar"
    labels := dataset.labels
    datasets :=
      [{ label := some "Applicants"
         data := dataset.values.getD []
         backgroundColor := Paint.each dataset.colors
         borderColor := Paint.each (dataset.colors.map (fun color => color ++ "CC"))
         borderWidth := some 1
         fill := false }]
    dataLabelsPlugin := true
    indexAxis := some "y"
    legendDisplay := true
    legendPosition := some "bottom"
    generateLabels := LegendLabels.applicants
    textColor := (getThemeColors theme).1
    gridColor := some (getThemeColors theme).2 }

/-- `buildPipelineChart(data, theme)` (lines 118-207). -/
def buildPipelineChart (m : AdminCharts) (data : DashboardData) (theme : String) :
    Except String AdminCharts :=
  if !m.pipelineChart.canvas then Except.ok m
  else
    let dataset := data.pipeline
    if noValues dataset.values then
      match writePlaceholder m.pipelineChart pipelinePlaceholder with
      | Except.ok slot => Except.ok { m with pipelineChart := slot }
      | Except.error e => Except.error e
    else
      Except.ok { m with pipelineChart := replaceChart m.pipelineChart (pipelineConfig dataset theme) }

/-- The configuration built at lines 226-300. -/
def documentsConfig (dataset : DocumentSeries) (theme : String) : ChartConfig :=
  { type := "bar"
    labels := dataset.labels
    datasets :=
      [{ label := some "Completion Rate (%)"
         data := dataset.completion_rates.getD []
         backgroundColor := Paint.each dataset.colors
         borderColor := Paint.each (dataset.colors.map (fun color => color ++ "CC"))
         borderWidth := some 1
         fill := false }]
    dataLabelsPlugin := true
    indexAxis := none
    legendDisplay := true
    legendPosition := some "bottom"
    generateLabels := LegendLabels.percent
    textColor := (getThemeColors theme).1
    gridColor := some (getThemeColors theme).2 }

/-- `buildDocumentsChart(data, theme)` (lines 209-301). -/
def buildDocumentsChart (m : AdminCharts) (data : DashboardData) (theme : String) :
    Except String AdminCharts :=
  if !m.documentsChart.canvas then Except.ok m
  else
    let dataset := data.documents
    if noValues dataset.completion_rates then
      match writePlaceholder m.documentsChart documentsPlaceholder with
      | Except.ok slot => Except.ok { m with documentsChart := slot }
      | Except.error e => Except.error e
    else
      Except.ok { m with documentsChart := replaceChart m.documentsChart (documentsConfig dataset theme) }

/-- The configuration built at lines 319-344. -/
def statusConfig (dataset : Series) (theme : String) : ChartConfig :=
  { type := "pie"
    labels := dataset.labels
    datasets :=
      [{ label := none
         data := dataset.values.getD []
         backgroundColor := Paint.each dataset.colors
         borderColor := Paint.one (if theme == "light" then "#ffffff" else "#2d2d2d")
         borderWidth := some 2
         fill := false }]
    dataLabelsPlugin := false
    indexAxis := none
    legendDisplay := true
    legendPosition := some "bottom"
    generateLabels := LegendLabels.builtin
    textColor := (getThemeColors theme).1
    gridColor := none }

/-- `buildStatusChart(data, theme)` (lines 303-345). -/
def buildStatusChart (m : AdminCharts) (data : DashboardData) (theme : String) :
    Except String AdminCharts :=
  if !m.statusChart.canvas then Except.ok m
  else
    let dataset := data.status
    if noValues dataset.values then
      match writePlaceholder m.statusChart statusPlaceholder with
      | Except.ok slot => Except.ok { m with statusChart := slot }
      | Except.error e => Except.error e
    else
      Except.ok { m with statusChart := replaceChart m.statusChart (statusConfig dataset theme) }

/-- The configuration built at lines 364-411. -/
def trendsConfig (dataset : TrendSeries) (theme : String) : ChartConfig :=
  { type := "line"
    labels := dataset.labels
    datasets :=
      [{ label := some "Applications"
         data := dataset.applications.getD []
         backgroundColor := Paint.one "rgba(121, 174, 200, 0.2)"
         borderColor := Paint.one "#79aec8"
         borderWidth := none
         fill := true },
       { label := some "Acceptances"
         data := dataset.acceptances
         backgroundColor := Paint.one "rgba(16, 185, 129, 0.2)"
         borderColor := Paint.one "#10B981"
         borderWidth := none
         fill := true }]
    dataLabelsPlugin := false
    indexAxis := none
    legendDisplay := true
    legendPosition := some "top"
    generateLabels := LegendLabels.builtin
    textColor := (getThemeColors theme).1
    gridColor := some (getThemeColors theme).2 }

/-- `buildTrendsChart(data, theme)` (lines 347-412). -/
def buildTrendsChart (m : AdminCharts) (data : DashboardData) (theme : String) :
    Except String AdminCharts :=
  if !m.trendsChart.canvas then Except.ok m
  else
    let dataset := data.trends
    if noValues dataset.applications then
      match writePlaceholder m.trendsChart trendsPlaceholder with
      | Except.ok slot => Except.ok { m with trendsChart := slot }
      | Except.error e => Except.error e
    else
      Except.ok { m with trendsChart := replaceChart m.trendsChart (trendsConfig dataset theme) }

/-- `paint[i]` in JavaScript: an array element, or a one-character string. -/
def paintAt (p : Paint) (i : Nat) : Option String :=
  match p with
  | Paint.each colors => colors[i]?
  | Paint.one color => (color.toList[i]?).map (fun c => String.singleton c)

/-- Text of a value inside a template literal: a missing array element reads
`undefined`. -/
def valueText (R : Runtime) (value : Option ℚ) : String :=
  match value with
  | some v => R.numberToString v
  | none => "undefined"

/-- The `generateLabels` callbacks of lines 160-178 (`suffix = " applicants)"`)
and 251-269 (`suffix = "%)"`), applied to the chart's `data`. -/
def generateLabels (R : Runtime) (suffix : String) (config : ChartConfig) : List LegendItem :=
  if config.labels.length != 0 && config.datasets.length != 0 then
    config.labels.mapIdx (fun i label =>
      let value := (config.datasets[0]?).bind (fun d => d.data[i]?)
      let fillColor := (config.datasets[0]?).bind (fun d => paintAt d.backgroundColor i)
      { text := label ++ " (" ++ valueText R value ++ suffix
        fillStyle := fillColor
        strokeStyle := fillColor
        lineWidth := 0
        hidden := false
        index := i })
  else []

/-- Legend entries the chart draws from its own `generateLabels` callback; the
charts without a callback leave the legend to Chart.js. -/
def legend (R : Runtime) (config : ChartConfig) : Option (List LegendItem) :=
  match config.generateLabels with
  | LegendLabels.applicants => some (generateLabels R " applicants)" config)
  | LegendLabels.percent => some (generateLabels R "%)" config)
  | LegendLabels.builtin => none

/-- The series has no usable values: the list is missing, empty, or all zeros. -/
def NoData (values : Option (List ℚ)) : Prop :=
  values = none ∨ values = some [] ∨ ∃ vs, values = some vs ∧ ∀ v ∈ vs, v = 0

/-- The call took the placeholder path: it wrote `html` into the container and
did nothing else; no chart was constructed or destroyed. -/
def TookPlaceholder (before after : ChartSlot) (html : String) : Prop :=
  after.trace = before.trace ++ [Effect.setContainerHTML html] ∧ after.chart = before.chart

/-- The call constructed a chart from `config`: `new Chart` is its last effect,
nothing was written into the container, and the chart variable holds the new
chart. -/
def ConstructedChart (before after : ChartSlot) (config : ChartConfig) : Prop :=
  (after.trace = before.trace ++ [Effect.newChart config] ∨
    after.trace = before.trace ++ [Effect.destroyChart, Effect.newChart config]) ∧
  after.chart = some config ∧ after.canvas = before.canvas

/-- The configuration carries `labels` and `values` unchanged and in order, as
the labels and the single dataset of the chart, so that index `i` of the one
goes with index `i` of the other. -/
def KeepsPairs (config : ChartConfig) (labels : List String) (values : List ℚ) : Prop :=
  config.labels = labels ∧ config.datasets.map (fun d => d.data) = [values]

/-- The legend the chart generates has one entry per label, and entry `i`
names label `i` together with value `i`. -/
def LegendPairs (R : Runtime) (config : ChartConfig) (labels : List String) (values : List ℚ)
    (suffix : String) : Prop :=
  ∃ items, legend R config = some items ∧ items.length = labels.length ∧
    ∀ (i : Nat) (hl : i < labels.length) (hv : i < values.length),
      ∃ item, items[i]? = some item ∧ item.index = i ∧
        item.text = labels[i] ++ " (" ++ R.numberToString values[i] ++ suffix

/-- A dashboard page on which all four canvases exist, each inside an element
of class `chart-container`, and no chart was built. -/
def examplePage : AdminCharts :=
  { pipelineChart := { canvas := true, container := true, chart := none, trace := [] }
    documentsChart := { canvas := true, container := true, chart := none, trace := [] }
    statusChart := { canvas := true, container := true, chart := none, trace := [] }
    trendsChart := { canvas := true, container := true, chart := none, trace := [] } }

/-- A page on which all four canvases exist, none of them inside an element of
class `chart-container`, and no chart was built. -/
def barePage : AdminCharts :=
  { pipelineChart := { canvas := true, container := false, chart := none, trace := [] }
    documentsChart := { canvas := true, container := false, chart := none, trace := [] }
    statusChart := { canvas := true, container := false, chart := none, trace := [] }
    trendsChart := { canvas := true, container := false, chart := none, trace := [] } }

/-- Dashboard data whose series all hold the values `[10, 20, 30]`. -/
def exampleData : DashboardData :=
  { pipeline := { labels := ["a", "b", "c"], values := some [10, 20, 30], colors := ["#1", "#2", "#3"] }
    documents :=
      { labels := ["a", "b", "c"], completion_rates := some [10, 20, 30], colors := ["#1", "#2", "#3"] }
    status := { labels := ["a", "b", "c"], values := some [10, 20, 30], colors := ["#1", "#2", "#3"] }
    trends := { labels := ["a", "b", "c"], applications := some [10, 20, 30], acceptances := [1, 2, 3] } }

/-- Dashboard data whose series all hold the values `[0, 0, 0]`. -/
def zeroData : DashboardData :=
  { pipeline := { labels := ["a", "b", "c"], values := some [0, 0, 0], colors := ["#1", "#2", "#3"] }
    documents :=
      { labels := ["a", "b", "c"], completion_rates := some [0, 0, 0], colors := ["#1", "#2", "#3"] }
    status := { labels := ["a", "b", "c"], values := some [0, 0, 0], colors := ["#1", "#2", "#3"] }
    trends := { labels := ["a", "b", "c"], applications := some [0, 0, 0], acceptances := [0, 0, 0] } }

end AdminCharts

/-! ## admin_charts.js (staticfiles/js) -/

namespace StaticfilesAdminCharts

/-- The configuration built at lines 76-107 of the `staticfiles` copy: the same
data block as the `static` copy, with the legend switched off. -/
def pipelineConfig (dataset : Series) (theme : String) : ChartConfig :=
  { type := "bar"
    labels := dataset.labels
    datasets :=
      [{ label := some "Applicants"
         data := dataset.values.getD []
         backgroundColor := Paint.each dataset.colors
         borderColor := Paint.each (dataset.colors.map (fun color => color ++ "CC"))
         borderWidth := some 1
         fill := false }]
    dataLabelsPlugin := false
    indexAxis := some "y"
    legendDisplay := false
    legendPosition := none
    generateLabels := LegendLabels.builtin
    textColor := (AdminCharts.getThemeColors theme).1
    gridColor := some (AdminCharts.getThemeColors theme).2 }

/-- `buildPipelineChart(data, theme)` (lines 60-108 of the `staticfiles` copy). -/
def buildPipelineChart (m : AdminCharts) (data : DashboardData) (theme : String) :
    Except String AdminCharts :=
  if !m.pipelineChart.canvas then Except.ok m
  else
    let dataset := data.pipeline
    if AdminCharts.noValues dataset.values then
      match AdminCharts.writePlaceholder m.pipelineChart AdminCharts.pipelinePlaceholder with
      | Except.ok slot => Except.ok { m with pipelineChart := slot }
      | Except.error e => Except.error e
    else
      Except.ok
        { m with pipelineChart := AdminCharts.replaceChart m.pipelineChart (pipelineConfig dataset theme) }

end StaticfilesAdminCharts

/-! ## admin_dashboard.js (static/js) -/

/-- Module state of `admin_dashboard.js`: `dashboardData`, the four chart
variables with their canvases (each canvas in a parent element of its own),
`Chart.defaults.color` and `Chart.defaults.borderColor`, and the lines written
with `console.warn` and `console.error`. -/
structure AdminDashboard where
  dashboardData : Option DashboardData
  charts : AdminCharts
  chartDefaults : Option (String × String)
  console : List String
deriving DecidableEq

/-- For each of the four charts, whether `new Chart(ctx, config)` throws. -/
structure ChartFailures where
  pipeline : Bool
  documents : Bool
  status : Bool
  trends : Bool
deriving DecidableEq

namespace AdminDashboard

/-- Markup written by `showNoDataMessage` (line 351). -/
def noDataMessage : String :=
  "<p class=\"text-muted text-center mt-5\" style=\"color: #79aec8;\">No data available</p>"

/-- `showNoDataMessage(canvasId)` (lines 347-353), on the slot of that canvas:
the parent's content is replaced, which removes the canvas. -/
def showNoDataMessage (slot : ChartSlot) : ChartSlot :=
  if slot.canvas then
    { slot with canvas := false, trace := slot.trace ++ [Effect.setContainerHTML noDataMessage] }
  else slot

/-- `if (chart) chart.destroy();` (lines 98-101); the variable keeps the
destroyed chart. -/
def destroyExisting (slot : ChartSlot) : ChartSlot :=
  if slot.chart.isSome then { slot with trace := slot.trace ++ [Effect.destroyChart] } else slot

/-- One of the four blocks of `initializeCharts` (lines 104-169, 172-241,
244-281, 284-343): `if (ctx) { try { chart = new Chart(ctx, config) } catch
(error) { console.error(line, error); showNoDataMessage(id) } }`.  Returns the
slot and the console line of the `catch`, if it ran. -/
def tryNewChart (slot : ChartSlot) (config : ChartConfig) (throws : Bool) (line : String) :
    ChartSlot × List String :=
  if slot.canvas then
    if throws then (showNoDataMessage slot, [line])
    else ({ slot with chart := some config, trace := slot.trace ++ [Effect.newChart config] }, [])
  else (slot, [])

/-- `initializeCharts()` (lines 83-344).  `lightMode` tells whether the
dashboard element carries the class `light-mode`.  The four configuration
objects have the same labels, datasets, legend and colours as those of
`admin_charts.js`. -/
def initializeCharts (throws : ChartFailures) (lightMode : Bool) (d : AdminDashboard) :
    AdminDashboard :=
  match d.dashboardData with
  | none => { d with console := d.console ++ ["Dashboard data not available"] }
  | some data =>
    let theme := if lightMode then "light" else "dark"
    let textColor := if theme == "light" then "#333333" else "#e0e0e0"
    let gridColor := if theme == "light" then "rgba(0,0,0,0.1)" else "rgba(255,255,255,0.1)"
    let pipeline := tryNewChart (destroyExisting d.charts.pipelineChart)
      (AdminCharts.pipelineConfig data.pipeline theme) throws.pipeline
      "Error creating pipeline chart:"
    let documents := tryNewChart (destroyExisting d.charts.documentsChart)
      (AdminCharts.documentsConfig data.documents theme) throws.documents
      "Error creating documents chart:"
    let status := tryNewChart (destroyExisting d.charts.statusChart)
      (AdminCharts.statusConfig data.status theme) throws.status
      "Error creating status chart:"
    let trends := tryNewChart (destroyExisting d.charts.trendsChart)
      (AdminCharts.trendsConfig data.trends theme) throws.trends
      "Error creating trends chart:"
    { d with
      chartDefaults := some (textColor, gridColor)
      charts :=
        { pipelineChart := pipeline.1
          documentsChart := documents.1
          statusChart := status.1
          trendsChart := trends.1 }
      console := d.console ++ pipeline.2 ++ documents.2 ++ status.2 ++ trends.2 }

/-- The chart's container now shows the 'No data available' placeholder: the
placeholder is the last thing written, no chart was constructed, and the
chart variable is as before. -/
def ReplacedByPlaceholder (before after : ChartSlot) : Prop :=
  (after.trace = before.trace ++ [Effect.setContainerHTML noDataMessage] ∨
    after.trace = before.trace ++ [Effect.destroyChart, Effect.setContainerHTML noDataMessage]) ∧
  after.chart = before.chart ∧ after.canvas = false

/-- A dashboard with data `data` on a page with all four canvases and no chart
built yet. -/
def exampleDashboard (data : DashboardData) : AdminDashboard :=
  { dashboardData := some data
    charts := AdminCharts.examplePage
    chartDefaults := none
    console := [] }

end AdminDashboard

/-! ## dark-mode.js -/

/-- A `DarkModeManager` with the parts of the page it reads and writes:
the `schooldriver-theme` entry of `localStorage`, the `data-theme` attribute
of the root element, the class list of `body`, the `themeChanged` events
dispatched so far and the toasts shown so far. -/
structure DarkModeManager where
  currentTheme : String
  storage : Option String
  dataTheme : Option String
  bodyClasses : List String
  events : List String
  toasts : List String
deriving DecidableEq

namespace DarkModeManager

/-- `getSavedTheme()` (lines 19-21). -/
def getSavedTheme (s : DarkModeManager) : Option String :=
  s.storage

/-- `saveTheme(theme)` (lines 23-25). -/
def saveTheme (s : DarkModeManager) (theme : String) : DarkModeManager :=
  { s with storage := some theme }

/-- `classList.add(c)`. -/
def classListAdd (classes : List String) (c : String) : List String :=
  if classes.contains c then classes else classes ++ [c]

/-- `applyTheme(theme)` (lines 27-44); the class updates on cards, tables,
modals, dropdowns and the toggle button are not part of the state. -/
def applyTheme (s : DarkModeManager) (theme : String) : DarkModeManager :=
  { s with
    bodyClasses :=
      classListAdd (s.bodyClasses.filter (fun c => c != "theme-light" && c != "theme-dark"))
        ("theme-" ++ theme)
    dataTheme := some theme
    events := s.events ++ [theme] }

/-- `showThemeChangeToast(theme)` (lines 137-167). -/
def showThemeChangeToast (s : DarkModeManager) (theme : String) : DarkModeManager :=
  { s with
    toasts := s.toasts ++ ["Switched to " ++ (if theme == "dark" then "Dark" else "Light") ++ " Mode"] }

/-- `toggleTheme()` (lines 127-135). -/
def toggleTheme (s : DarkModeManager) : DarkModeManager :=
  let newTheme := if s.currentTheme == "light" then "dark" else "light"
  let s1 := { s with currentTheme := newTheme }
  let s2 := saveTheme s1 newTheme
  let s3 := applyTheme s2 newTheme
  showThemeChangeToast s3 newTheme

/-- `setTheme(theme)` (lines 170-176). -/
def setTheme (s : DarkModeManager) (theme : String) : DarkModeManager :=
  if ["light", "dark"].contains theme then
    let s1 := { s with currentTheme := theme }
    let s2 := saveTheme s1 theme
    applyTheme s2 theme
  else s

/-- `getCurrentTheme()` (lines 178-180). -/
def getCurrentTheme (s : DarkModeManager) : String :=
  s.currentTheme

/-- `saved || 'light'`: an absent entry and the empty string are falsy. -/
def savedOrLight (saved : Option String) : String :=
  match saved with
  | some t => if t == "" then "light" else t
  | none => "light"

/-- `init()` (lines 11-17), run by the constructor on a page whose storage
holds `storage` and whose `body` carries `bodyClasses`. -/
def init (storage : Option String) (bodyClasses : List String) : DarkModeManager :=
  let s0 : DarkModeManager :=
    { currentTheme := savedOrLight storage
      storage := storage
      dataTheme := none
      bodyClasses := bodyClasses
      events := []
      toasts := [] }
  applyTheme s0 s0.currentTheme

/-- The listener installed by `setupSystemThemeDetection()` (lines 118-123);
`dark` is `e.matches`. -/
def systemThemeChanged (s : DarkModeManager) (dark : Bool) : DarkModeManager :=
  match getSavedTheme s with
  | none => applyTheme s (if dark then "dark" else "light")
  | some t => if t == "" then applyTheme s (if dark then "dark" else "light") else s

/-- `setupSystemThemeDetection()` (lines 114-125) on a browser whose
`(prefers-color-scheme: dark)` media query currently reports `prefersDark`:
it registers `systemThemeChanged` as the `change` listener of the query and
does not read the query's current value. -/
def setupSystemThemeDetection (s : DarkModeManager) (_prefersDark : Bool) : DarkModeManager :=
  s

/-- `init()` (lines 11-17) on a browser whose colour-scheme media query
currently reports `prefersDark`. -/
def initOnSystem (prefersDark : Bool) (storage : Option String) (bodyClasses : List String) :
    DarkModeManager :=
  setupSystemThemeDetection (init storage bodyClasses) prefersDark

/-- How `localStorage` behaves: whether `getItem` throws and whether `setItem`
throws. -/
structure StorageFaults where
  readsFail : Bool
  writesFail : Bool
deriving DecidableEq

/-- The exception a failing `localStorage` call throws. -/
def storageError : String :=
  "SecurityError: localStorage is not available"

/-- `new DarkModeManager()` (lines 7-17) when storage may fail: `init()` calls
`getSavedTheme()` before anything else and nothing catches what
`localStorage.getItem` throws. -/
def constructOn (faults : StorageFaults) (storage : Option String) (bodyClasses : List String) :
    Except String DarkModeManager :=
  if faults.readsFail then Except.error storageError
  else Except.ok (init storage bodyClasses)

/-- `toggleTheme()` (lines 127-135) when storage may fail: the state the call
leaves and the exception it throws, if any.  `this.currentTheme` is assigned
before `saveTheme` runs. -/
def toggleThemeOn (faults : StorageFaults) (s : DarkModeManager) :
    DarkModeManager × Option String :=
  let newTheme := if s.currentTheme == "light" then "dark" else "light"
  let s1 := { s with currentTheme := newTheme }
  if faults.writesFail then (s1, some storageError)
  else
    let s2 := saveTheme s1 newTheme
    let s3 := applyTheme s2 newTheme
    (showThemeChangeToast s3 newTheme, none)

/-- `setTheme(theme)` (lines 170-176) when storage may fail: the state the call
leaves and the exception it throws, if any. -/
def setThemeOn (faults : StorageFaults) (s : DarkModeManager) (theme : String) :
    DarkModeManager × Option String :=
  if ["light", "dark"].contains theme then
    let s1 := { s with currentTheme := theme }
    if faults.writesFail then (s1, some storageError)
    else
      let s2 := saveTheme s1 theme
      (applyTheme s2 theme, none)
  else (s, none)

end DarkModeManager

/-! ## onboarding.js -/

/-- One step of a guided tour. -/
structure TourStep where
  target : String
  title : String
  content : String
  position : String
deriving DecidableEq

/-- An `OnboardingManager` with the parts of the page it writes: whether
`this.overlay` is set, the number of overlay elements in the document, the
selector of the highlighted element, the step whose tooltip is shown, the
`schooldriver_onboarding_completed` entry of `localStorage`, and the
messages shown so far (text and type). -/
structure OnboardingManager where
  currentStep : Nat
  tourSteps : List TourStep
  isActive : Bool
  overlay : Bool
  overlaysInDocument : Nat
  highlighted : Option String
  tooltip : Option Nat
  completedFlag : Option String
  messages : List (String × String)
deriving DecidableEq

namespace OnboardingManager

/-- `haystack.includes(needle)`. -/
def includes (haystack needle : String) : Bool :=
  haystack.toList.tails.any (fun t => needle.toList.isPrefixOf t)

/-- `getTourStepsForPage()` (lines 151-199); `path` is `window.location.pathname`. -/
def getTourStepsForPage (path : String) : List TourStep :=
  if includes path "dashboard" then
    [ { target := ".sidebar .nav-link[href*=\"dashboard\"]"
        title := "Navigation Menu"
        content := "Use this sidebar to navigate between different sections of your student portal."
        position := "right" },
      { target := "[data-tour=\"gpa-cards\"]"
        title := "Academic Overview"
        content := "Here you can see your current GPA and academic performance at a glance."
        position := "bottom" },
      { target := "[data-tour=\"upcoming-assignments\"]"
        title := "Upcoming Assignments"
        content := "Stay on top of your coursework with this list of upcoming assignments and due dates."
        position := "top" },
      { target := "[data-tour=\"today-schedule\"]"
        title := "Today's Schedule"
        content := "View your classes for today, including times and classroom locations."
        position := "left" } ]
  else if includes path "grades" then
    [ { target := "select[name=\"year\"]"
        title := "School Year Filter"
        content := "Use this dropdown to view grades from different school years."
        position := "bottom" },
      { target := ".course-grade-card:first-child"
        title := "Course Grades"
        content := "Each card shows your current grade, progress, and breakdown by category for each course."
        position := "right" } ]
  else []

/-- `showMessage(text, type)` (lines 536-556). -/
def showMessage (s : OnboardingManager) (text type : String) : OnboardingManager :=
  { s with messages := s.messages ++ [(text, type)] }

/-- The message `endTour()` shows. -/
def tourCompletedText : String :=
  "Tour completed! Use the help button anytime you need assistance."

/-- `createOverlay()` (lines 204-218). -/
def createOverlay (s : OnboardingManager) : OnboardingManager :=
  { s with overlay := true, overlaysInDocument := s.overlaysInDocument + 1 }

/-- `endTour()` (lines 377-400). -/
def endTour (s : OnboardingManager) : OnboardingManager :=
  let s1 := { s with isActive := false }
  let s2 :=
    if s1.overlay then { s1 with overlay := false, overlaysInDocument := s1.overlaysInDocument - 1 }
    else s1
  let s3 := { s2 with tooltip := none, highlighted := none, completedFlag := some "true" }
  showMessage s3 tourCompletedText "success"

/-- `highlightElement(element)` (lines 248-282), for the element `target` selects. -/
def highlightElement (s : OnboardingManager) (target : String) : OnboardingManager :=
  { s with highlighted := some target }

/-- `showTooltip(target, step, stepIndex)` (lines 287-317). -/
def showTooltip (s : OnboardingManager) (stepIndex : Nat) : OnboardingManager :=
  { s with tooltip := some stepIndex }

/-- The recursion of `showStep` (lines 223-243) over the steps that remain from
`stepIndex` on, that is over `this.tourSteps.slice(stepIndex)`: no step left
ends the tour, a step whose target is missing is skipped, and the first step
whose target exists is highlighted and gets the tooltip. -/
def showStepFrom (dom : String → Bool) (s : OnboardingManager) :
    List TourStep → Nat → OnboardingManager
  | [], _ => endTour s
  | step :: rest, stepIndex =>
    if !dom step.target then showStepFrom dom s rest (stepIndex + 1)
    else showTooltip (highlightElement s step.target) stepIndex

/-- `showStep(stepIndex)` (lines 223-243); `dom selector` tells whether
`document.querySelector(selector)` finds an element. -/
def showStep (dom : String → Bool) (s : OnboardingManager) (stepIndex : Nat) : OnboardingManager :=
  showStepFrom dom s (s.tourSteps.drop stepIndex) stepIndex

/-- `nextStep()` (lines 359-362). -/
def nextStep (dom : String → Bool) (s : OnboardingManager) : OnboardingManager :=
  let s1 := { s with currentStep := s.currentStep + 1 }
  showStep dom s1 s1.currentStep

/-- `previousStep()` (lines 367-372). -/
def previousStep (dom : String → Bool) (s : OnboardingManager) : OnboardingManager :=
  if s.currentStep > 0 then
    let s1 := { s with currentStep := s.currentStep - 1 }
    showStep dom s1 s1.currentStep
  else s

/-- The body of `startTour()` (lines 137-145) once `this.tourSteps` has been
assigned `steps`. -/
def startTourWith (dom : String → Bool) (s : OnboardingManager) (steps : List TourStep) :
    OnboardingManager :=
  let s1 := { s with tourSteps := steps }
  if s1.tourSteps.length == 0 then
    showMessage s1 "Tour not available on this page. Please visit the Dashboard to start the tour." "info"
  else
    let s2 := { s1 with currentStep := 0, isActive := true }
    let s3 := createOverlay s2
    showStep dom s3 0

/-- `startTour()` (lines 128-146) on the page at `path`. -/
def startTour (dom : String → Bool) (s : OnboardingManager) (path : String) : OnboardingManager :=
  startTourWith dom s (getTourStepsForPage path)

/-- The state the constructor leaves (lines 7-12). -/
def fresh (completedFlag : Option String) : OnboardingManager :=
  { currentStep := 0
    tourSteps := []
    isActive := false
    overlay := false
    overlaysInDocument := 0
    highlighted := none
    tooltip := none
    completedFlag := completedFlag
    messages := [] }

/-- `nextStep()` called `n` times in a row. -/
def nextSteps (dom : String → Bool) (s : OnboardingManager) : Nat → OnboardingManager
  | 0 => s
  | n + 1 => nextSteps dom (nextStep dom s) n

/-- A document in which every selector finds an element except those listed. -/
def domWithout (missing : List String) (selector : String) : Bool :=
  !missing.contains selector

/-- Whether the target of every step in the list is missing. -/
def allMissing (dom : String → Bool) (steps : List TourStep) : Bool :=
  steps.all (fun step => !dom step.target)

/-- Number of steps at the end of the tour whose targets are all missing. -/
def trailingMissing (dom : String → Bool) : List TourStep → Nat
  | [] => 0
  | step :: rest =>
    if allMissing dom (step :: rest) then (step :: rest).length else trailingMissing dom rest

/-- How many times tour completion ran: each `endTour()` shows the
completion message once, and nothing else shows it. -/
def completions (s : OnboardingManager) : Nat :=
  s.messages.countP (fun m => m.1 == tourCompletedText)

/-- A rectangle as `getBoundingClientRect()` returns it. -/
structure Rect where
  top : ℚ
  left : ℚ
  bottom : ℚ
  right : ℚ
  width : ℚ
  height : ℚ
deriving DecidableEq

/-- `positionTooltip(tooltip, target, position)` (lines 322-354): the `top` and
`left` written to the tooltip's style, from the two bounding rectangles, the
preferred side and `window.innerWidth`, `window.innerHeight`. -/
def positionTooltip (targetRect tooltipRect : Rect) (position : String)
    (innerWidth innerHeight : ℚ) : ℚ × ℚ :=
  let raw : ℚ × ℚ :=
    if position == "top" then
      (targetRect.top - tooltipRect.height - 10,
        targetRect.left + (targetRect.width - tooltipRect.width) / 2)
    else if position == "bottom" then
      (targetRect.bottom + 10,
        targetRect.left + (targetRect.width - tooltipRect.width) / 2)
    else if position == "left" then
      (targetRect.top + (targetRect.height - tooltipRect.height) / 2,
        targetRect.left - tooltipRect.width - 10)
    else
      (targetRect.top + (targetRect.height - tooltipRect.height) / 2,
        targetRect.right + 10)
  (max 10 (min raw.1 (innerHeight - tooltipRect.height - 10)),
    max 10 (min raw.2 (innerWidth - tooltipRect.width - 10)))

end OnboardingManager

/-! ## Properties of the live analytics buffer -/

namespace LiveAnalytics

theorem orDefault_none (d : ℚ) : orDefault none d = d := rfl

theorem orDefault_zero (d : ℚ) : orDefault (some 0) d = d := by
  simp [orDefault]

theorem orDefault_some (q d : ℚ) (hq : q ≠ 0) : orDefault (some q) d = q := by
  simp [orDefault, hq]

theorem orDefault_ne_zero (o : Option ℚ) (d : ℚ) (hd : d ≠ 0) : orDefault o d ≠ 0 := by
  cases o with
  | none => exact hd
  | some q =>
    by_cases hq : q = 0
    · rw [hq, orDefault_zero]
      exact hd
    · rw [orDefault_some q d hq]
      exact hq

theorem orDefault_pos (o : Option ℚ) (d : ℚ) (hd : 0 < d) (ho : ∀ q, o = some q → 0 ≤ q) :
    0 < orDefault o d := by
  cases o with
  | none => exact hd
  | some q =>
    by_cases hq : q = 0
    · rw [hq, orDefault_zero]
      exact hd
    · rw [orDefault_some q d hq]
      exact lt_of_le_of_ne (ho q rfl) (Ne.symm hq)

theorem construct_config (page : Page) (options : Options) (now : Int) :
    (construct page options now).maxDataPoints = orDefault options.maxDataPoints 50 ∧
    (construct page options now).updateInterval = orDefault options.updateInterval 2000 ∧
    (construct page options now).maxFPS = orDefault options.maxFPS 30 ∧
    (construct page options now).frameInterval =
      1000 / ((construct page options now).maxFPS : ℚ) ∧
    (construct page options now).chart ≠ none := by
  refine ⟨rfl, rfl, rfl, rfl, ?_⟩
  simp [construct, start, initializeChart]

theorem construct_buffers (page : Page) (options : Options) (now : Int) :
    (construct page options now).dataPoints = [] ∧ (construct page options now).labels = [] :=
  ⟨rfl, rfl⟩

theorem smallInstance_maxDataPoints : smallInstance.maxDataPoints = 2 := by
  rw [smallInstance, (construct_config _ _ _).1]
  exact orDefault_some 2 50 (by norm_num)

theorem smallInstance_maxFPS : smallInstance.maxFPS = 30 := by
  rw [smallInstance, (construct_config _ _ _).2.2.1]
  rfl

theorem lastN_length_le {α : Type} (n : Nat) (xs : List α) : (lastN n xs).length ≤ n := by
  unfold lastN
  rw [List.length_drop]
  omega

theorem lastN_length {α : Type} (n : Nat) (xs : List α) (h : n ≤ xs.length) :
    (lastN n xs).length = n := by
  unfold lastN
  rw [List.length_drop]
  omega

/-- With a capacity that is a natural number, the test of `pushShift` is the
comparison of two natural numbers. -/
theorem pushShift_natCast {α : Type} (xs : List α) (x : α) (m n : Nat) :
    pushShift xs x m (n : ℚ) = if m > n then (xs ++ [x]).tail else xs ++ [x] := by
  unfold pushShift
  simp only [gt_iff_lt, Nat.cast_lt]

/-- Pushing onto the last-`n` window of `xs` and shifting on overflow gives the
last-`n` window of `xs ++ [x]`. -/
theorem pushShift_lastN {α : Type} (n : Nat) (hn : 0 < n) (xs : List α) (x : α) :
    pushShift (lastN n xs) x ((lastN n xs).length + 1) (n : ℚ) = lastN n (xs ++ [x]) := by
  rw [pushShift_natCast]
  unfold lastN
  by_cases h : xs.length < n
  · have h0 : xs.length - n = 0 := by omega
    have h1 : (xs ++ [x]).length - n = 0 := by
      rw [List.length_append, List.length_singleton]; omega
    rw [h0, h1]
    simp only [List.drop_zero]
    rw [if_neg (by omega)]
  · have hlen : (List.drop (xs.length - n) xs).length = n := by
      rw [List.length_drop]; omega
    rw [hlen, if_pos (by omega)]
    have h1 : (xs ++ [x]).length - n = (xs.length - n) + 1 := by
      rw [List.length_append, List.length_singleton]; omega
    rw [h1, ← List.drop_one, ← List.drop_append_of_le_length (by omega), List.drop_drop]

theorem addDataPoint_dataPoints (R : Runtime) (s : LiveAnalytics) (t : Tick) :
    (addDataPoint R s t).dataPoints =
      pushShift s.dataPoints (sampleValue R s t) (s.dataPoints.length + 1) s.maxDataPoints := by
  simp [addDataPoint, sampleValue]

theorem addDataPoint_labels (R : Runtime) (s : LiveAnalytics) (t : Tick) :
    (addDataPoint R s t).labels =
      pushShift s.labels (sampleLabel R t) (s.dataPoints.length + 1) s.maxDataPoints := by
  simp [addDataPoint, sampleLabel]

theorem addDataPoint_maxDataPoints (R : Runtime) (s : LiveAnalytics) (t : Tick) :
    (addDataPoint R s t).maxDataPoints = s.maxDataPoints := rfl

theorem addDataPoint_startTime (R : Runtime) (s : LiveAnalytics) (t : Tick) :
    (addDataPoint R s t).startTime = s.startTime := rfl

theorem addDataPoint_paused (R : Runtime) (s : LiveAnalytics) (t : Tick) :
    (addDataPoint R s t).paused = s.paused := rfl

theorem sampleValue_congr (R : Runtime) (s s1 : LiveAnalytics) (t : Tick)
    (h : s1.startTime = s.startTime) : sampleValue R s1 t = sampleValue R s t := by
  simp [sampleValue, generateDataPoint, h]

/-- Inserting a run of ticks into a well-formed buffer whose capacity is the
natural number `N` leaves the last `N` entries of the old contents followed by
the new ones. -/
theorem foldl_addDataPoint (R : Runtime) (s : LiveAnalytics) (ticks : List Tick) (N : Nat)
    (hcap : s.maxDataPoints = N) (hN : 0 < N) (hlen : s.labels.length = s.dataPoints.length)
    (hle : s.dataPoints.length ≤ N) :
    (ticks.foldl (addDataPoint R) s).maxDataPoints = s.maxDataPoints ∧
    (ticks.foldl (addDataPoint R) s).startTime = s.startTime ∧
    (ticks.foldl (addDataPoint R) s).dataPoints =
      lastN N (s.dataPoints ++ ticks.map (sampleValue R s)) ∧
    (ticks.foldl (addDataPoint R) s).labels =
      lastN N (s.labels ++ ticks.map (sampleLabel R)) := by
  induction ticks using List.reverseRecOn with
  | nil =>
    refine ⟨rfl, rfl, ?_, ?_⟩
    · simp only [List.foldl_nil, List.map_nil, List.append_nil, lastN]
      rw [Nat.sub_eq_zero_of_le hle, List.drop_zero]
    · simp only [List.foldl_nil, List.map_nil, List.append_nil, lastN]
      rw [Nat.sub_eq_zero_of_le (hlen ▸ hle), List.drop_zero]
  | append_singleton ts t ih =>
    obtain ⟨ihN, ihT, ihD, ihL⟩ := ih
    have hlenEq : (lastN N (s.labels ++ ts.map (sampleLabel R))).length =
        (lastN N (s.dataPoints ++ ts.map (sampleValue R s))).length := by
      simp only [lastN, List.length_drop, List.length_append, List.length_map, hlen]
    rw [List.foldl_append, List.foldl_cons, List.foldl_nil]
    refine ⟨?_, ?_, ?_, ?_⟩
    · rw [addDataPoint_maxDataPoints, ihN]
    · rw [addDataPoint_startTime, ihT]
    · rw [addDataPoint_dataPoints, ihN, ihD, sampleValue_congr R s _ t ihT, hcap,
        pushShift_lastN _ hN, List.map_append, List.map_singleton, List.append_assoc]
    · rw [addDataPoint_labels, ihN, ihD, ihL, ← hlenEq, hcap,
        pushShift_lastN _ hN, List.map_append, List.map_singleton, List.append_assoc]

theorem pushShift_length {α : Type} (xs : List α) (x : α) (n : ℚ) :
    (pushShift xs x (xs.length + 1) n).length =
      if ((xs.length + 1 : ℕ) : ℚ) > n then xs.length else xs.length + 1 := by
  unfold pushShift
  split <;> simp

theorem pushShift_length_of_eq {α β : Type} (xs : List α) (ys : List β) (x : α) (n : ℚ)
    (h : xs.length = ys.length) :
    (pushShift xs x (ys.length + 1) n).length =
      if ((ys.length + 1 : ℕ) : ℚ) > n then ys.length else ys.length + 1 := by
  rw [← h]
  exact pushShift_length xs x n

theorem pushShift_full {α : Type} (xs : List α) (x : α) (m : Nat) (n : ℚ) (hm : (m : ℚ) = n)
    (hx : xs ≠ []) : pushShift xs x (m + 1) n = xs.tail ++ [x] := by
  unfold pushShift
  rw [if_pos (by rw [← hm]; push_cast; linarith)]
  cases xs with
  | nil => exact absurd rfl hx
  | cons a as => rfl

/-- `labels` and `dataPoints` stay in step under an insertion, whatever the
capacity is. -/
theorem lockStep_addDataPoint (R : Runtime) (s : LiveAnalytics) (t : Tick)
    (hlen : s.labels.length = s.dataPoints.length) :
    (addDataPoint R s t).labels.length = (addDataPoint R s t).dataPoints.length := by
  rw [addDataPoint_labels, addDataPoint_dataPoints, pushShift_length,
    pushShift_length_of_eq _ _ _ _ hlen]

theorem lockStep_foldl (R : Runtime) (ticks : List Tick) (s : LiveAnalytics)
    (hlen : s.labels.length = s.dataPoints.length) :
    (ticks.foldl (addDataPoint R) s).labels.length =
      (ticks.foldl (addDataPoint R) s).dataPoints.length := by
  induction ticks generalizing s with
  | nil => exact hlen
  | cons t ts ih => exact ih (addDataPoint R s t) (lockStep_addDataPoint R s t hlen)

theorem bufferOk_addDataPoint (R : Runtime) (s : LiveAnalytics) (t : Tick) (hs : BufferOk s) :
    BufferOk (addDataPoint R s t) := by
  obtain ⟨hN, hlen, hle⟩ := hs
  refine ⟨hN, lockStep_addDataPoint R s t hlen, ?_⟩
  rw [addDataPoint_dataPoints, pushShift_length, addDataPoint_maxDataPoints]
  split
  · exact hle
  · rename_i h
    exact not_lt.1 h

theorem pause_fields (s : LiveAnalytics) :
    (pause s).dataPoints = s.dataPoints ∧ (pause s).labels = s.labels ∧
    (pause s).maxDataPoints = s.maxDataPoints ∧ (pause s).startTime = s.startTime ∧
    (pause s).paused = true := by
  unfold pause
  dsimp only
  split <;> simp

theorem resume_fields (s : LiveAnalytics) :
    (resume s).dataPoints = s.dataPoints ∧ (resume s).labels = s.labels ∧
    (resume s).maxDataPoints = s.maxDataPoints ∧ (resume s).startTime = s.startTime ∧
    (resume s).paused = false := by
  unfold resume
  cases h : s.paused <;> simp [requestAnimationFrame, h]

theorem bufferOk_pause (s : LiveAnalytics) (hs : BufferOk s) : BufferOk (pause s) := by
  obtain ⟨hd, hl, hm, -, -⟩ := pause_fields s
  unfold BufferOk
  rw [hd, hl, hm]
  exact hs

theorem bufferOk_resume (s : LiveAnalytics) (hs : BufferOk s) : BufferOk (resume s) := by
  obtain ⟨hd, hl, hm, -, -⟩ := resume_fields s
  unfold BufferOk
  rw [hd, hl, hm]
  exact hs

theorem bufferOk_step (R : Runtime) (s : LiveAnalytics) (c : Call) (hs : BufferOk s) :
    BufferOk (step R s c) := by
  cases c with
  | addDataPoint t => exact bufferOk_addDataPoint R s t hs
  | update t =>
    show BufferOk (update R s t)
    unfold update
    split
    · exact bufferOk_addDataPoint R s t hs
    · exact hs
  | pause => exact bufferOk_pause s hs
  | resume => exact bufferOk_resume s hs
  | toggle =>
    show BufferOk (toggle s).1
    unfold toggle
    dsimp only
    split
    · exact bufferOk_resume s hs
    · exact bufferOk_pause s hs

theorem bufferOk_run (R : Runtime) (calls : List Call) (s : LiveAnalytics) (hs : BufferOk s) :
    BufferOk (run R s calls) := by
  induction calls generalizing s with
  | nil => exact hs
  | cons c cs ih => exact ih (step R s c) (bufferOk_step R s c hs)

/-- The constructor leaves a well-formed buffer when the `maxDataPoints` option
is absent, 0 or positive. -/
theorem bufferOk_construct (page : Page) (options : Options) (now : Int)
    (hopt : ∀ q, options.maxDataPoints = some q → 0 ≤ q) :
    BufferOk (construct page options now) := by
  refine ⟨?_, rfl, ?_⟩
  · rw [(construct_config page options now).1]
    exact orDefault_pos _ 50 (by norm_num) hopt
  · rw [(construct_buffers page options now).1, (construct_config page options now).1]
    exact le_of_lt (by simpa using orDefault_pos _ 50 (by norm_num) hopt)

theorem fullInstance_fields :
    fullInstance.maxDataPoints = 2 ∧ fullInstance.dataPoints.length = 2 ∧
    fullInstance.labels.length = 2 := by
  obtain ⟨h1, -, h3, h4⟩ := foldl_addDataPoint exampleRuntime smallInstance (threeTicks.take 2) 2
    (by rw [smallInstance_maxDataPoints]; norm_num) (by decide) rfl (by decide)
  refine ⟨?_, ?_, ?_⟩
  · rw [fullInstance, h1, smallInstance_maxDataPoints]
  · rw [fullInstance, h3]
    rfl
  · rw [fullInstance, h4]
    rfl

theorem fullInstance_bufferOk : BufferOk fullInstance := by
  obtain ⟨h1, h2, h3⟩ := fullInstance_fields
  refine ⟨?_, ?_, ?_⟩
  · rw [h1]; norm_num
  · rw [h2, h3]
  · rw [h1, h2]; norm_num

theorem fullInstance_full : (fullInstance.dataPoints.length : ℚ) = fullInstance.maxDataPoints := by
  obtain ⟨h1, h2, -⟩ := fullInstance_fields
  rw [h1, h2]
  norm_num

/-- C1: on an initially empty buffer whose capacity `maxDataPoints` is the
positive integer `N`, after `M > N` calls of `addDataPoint()` the buffer holds
exactly `N` values, namely the values of the last `N` insertions in insertion
order, and `labels` holds the labels of those same insertions in order. -/
theorem sliding_window_keeps_last_insertions (R : Runtime) (s : LiveAnalytics)
    (ticks : List Tick) (N : Nat) (hd : s.dataPoints = []) (hl : s.labels = [])
    (hcap : s.maxDataPoints = N) (hN : 0 < N) (hM : N < ticks.length) :
    (ticks.foldl (addDataPoint R) s).dataPoints.length = N ∧
    (ticks.foldl (addDataPoint R) s).dataPoints =
      (ticks.drop (ticks.length - N)).map (sampleValue R s) ∧
    (ticks.foldl (addDataPoint R) s).labels.length = N ∧
    (ticks.foldl (addDataPoint R) s).labels =
      (ticks.drop (ticks.length - N)).map (sampleLabel R) := by
  obtain ⟨-, -, hD, hL⟩ := foldl_addDataPoint R s ticks N hcap hN (by simp [hd, hl])
    (by rw [hd]; exact Nat.zero_le _)
  rw [hd, List.nil_append] at hD
  rw [hl, List.nil_append] at hL
  have e1 : (ticks.foldl (addDataPoint R) s).dataPoints =
      (ticks.drop (ticks.length - N)).map (sampleValue R s) := by
    rw [hD, lastN, List.length_map, List.map_drop]
  have e2 : (ticks.foldl (addDataPoint R) s).labels =
      (ticks.drop (ticks.length - N)).map (sampleLabel R) := by
    rw [hL, lastN, List.length_map, List.map_drop]
  refine ⟨?_, e1, ?_, e2⟩
  · rw [e1, List.length_map, List.length_drop]; omega
  · rw [e2, List.length_map, List.length_drop]; omega

/-- Witness for C1: capacity 2, three insertions. -/
theorem sliding_window_keeps_last_insertions_witness :
    (threeTicks.foldl (addDataPoint exampleRuntime) smallInstance).dataPoints.length = 2 ∧
    (threeTicks.foldl (addDataPoint exampleRuntime) smallInstance).dataPoints =
      (threeTicks.drop 1).map (sampleValue exampleRuntime smallInstance) ∧
    (threeTicks.foldl (addDataPoint exampleRuntime) smallInstance).labels.length = 2 ∧
    (threeTicks.foldl (addDataPoint exampleRuntime) smallInstance).labels =
      (threeTicks.drop 1).map (sampleLabel exampleRuntime) :=
  sliding_window_keeps_last_insertions exampleRuntime smallInstance threeTicks 2
    rfl rfl (by rw [smallInstance_maxDataPoints]; norm_num) (by decide) (by decide)

/-- C2, as the code has it: for an instance constructed with the `maxDataPoints`
option absent, 0 or positive, in every state reached from construction by any
sequence of `addDataPoint()`, `update()`, `pause()`, `resume()` and `toggle()`
calls the buffer holds at most `maxDataPoints` values; and in every state,
reached or not, whose capacity is positive and whose `labels` and `dataPoints`
are in step, an insertion into a buffer holding exactly `maxDataPoints` values
removes the entry at index 0 and nothing else: the new contents are the old
ones without their head, followed by the new sample (likewise for the
labels). -/
theorem buffer_bound_and_fifo_eviction (R : Runtime) (page : Page) (options : Options)
    (now : Int) (calls : List Call) (hopt : ∀ q, options.maxDataPoints = some q → 0 ≤ q) :
    ((run R (construct page options now) calls).dataPoints.length : ℚ) ≤
      (run R (construct page options now) calls).maxDataPoints ∧
    (∀ (s : LiveAnalytics) (t : Tick), BufferOk s →
      (s.dataPoints.length : ℚ) = s.maxDataPoints →
        (addDataPoint R s t).dataPoints = s.dataPoints.tail ++ [sampleValue R s t] ∧
        (addDataPoint R s t).labels = s.labels.tail ++ [sampleLabel R t] ∧
        (addDataPoint R s t).dataPoints.length = s.dataPoints.length) := by
  obtain ⟨-, -, hle⟩ := bufferOk_run R calls _ (bufferOk_construct page options now hopt)
  refine ⟨hle, fun s t hs hfull => ?_⟩
  obtain ⟨hN, hlen, -⟩ := hs
  have hpos : 0 < s.dataPoints.length := by
    have : (0 : ℚ) < (s.dataPoints.length : ℚ) := by rw [hfull]; exact hN
    exact_mod_cast this
  have hd : s.dataPoints ≠ [] := fun h => by rw [h] at hpos; exact absurd hpos (by simp)
  have hl : s.labels ≠ [] := fun h => by
    rw [← hlen, h] at hpos
    exact absurd hpos (by simp)
  have e1 : (addDataPoint R s t).dataPoints = s.dataPoints.tail ++ [sampleValue R s t] := by
    rw [addDataPoint_dataPoints]
    exact pushShift_full _ _ _ _ hfull hd
  refine ⟨e1, ?_, ?_⟩
  · rw [addDataPoint_labels]
    exact pushShift_full _ _ _ _ hfull hl
  · rw [e1, List.length_append, List.length_tail, List.length_singleton]
    omega

/-- Witness for C2 as amended: capacity 2; the bound after three insertions,
and the eviction from the full buffer that two insertions leave. -/
theorem buffer_bound_and_fifo_eviction_witness :
    ((run exampleRuntime smallInstance (threeTicks.map Call.addDataPoint)).dataPoints.length : ℚ) ≤
      (run exampleRuntime smallInstance (threeTicks.map Call.addDataPoint)).maxDataPoints ∧
    (addDataPoint exampleRuntime fullInstance oneTick).dataPoints =
      fullInstance.dataPoints.tail ++ [sampleValue exampleRuntime fullInstance oneTick] :=
  ⟨(buffer_bound_and_fifo_eviction exampleRuntime emptyPage
      { maxDataPoints := some 2, updateInterval := none, maxFPS := none } 1000
      (threeTicks.map Call.addDataPoint)
      (fun q h => by
        have hq : (2 : ℚ) = q := Option.some.inj h
        rw [← hq]
        norm_num)).1,
   ((buffer_bound_and_fifo_eviction exampleRuntime emptyPage
      { maxDataPoints := some 2, updateInterval := none, maxFPS := none } 1000 []
      (fun q h => by
        have hq : (2 : ℚ) = q := Option.some.inj h
        rw [← hq]
        norm_num)).2 fullInstance oneTick fullInstance_bufferOk fullInstance_full).1⟩

/-- Counterexample to C2 as stated: constructed with `maxDataPoints: -1`, the
instance keeps the capacity -1, so its empty buffer already holds more than
`maxDataPoints` values, and it still does after an insertion, which leaves the
buffer empty. -/
theorem negative_capacity_breaks_the_bound :
    negativeInstance.maxDataPoints = -1 ∧
    negativeInstance.dataPoints.length = 0 ∧
    ¬ ((negativeInstance.dataPoints.length : ℚ) ≤ negativeInstance.maxDataPoints) ∧
    (addDataPoint exampleRuntime negativeInstance oneTick).dataPoints = [] ∧
    ¬ (((addDataPoint exampleRuntime negativeInstance oneTick).dataPoints.length : ℚ) ≤
      (addDataPoint exampleRuntime negativeInstance oneTick).maxDataPoints) := by
  have hm : negativeInstance.maxDataPoints = -1 := by
    rw [negativeInstance, (construct_config _ _ _).1]
    exact orDefault_some (-1) 50 (by norm_num)
  have hd : negativeInstance.dataPoints = [] := rfl
  have ha : (addDataPoint exampleRuntime negativeInstance oneTick).dataPoints = [] := by
    rw [addDataPoint_dataPoints, hd, hm]
    simp [pushShift]
  refine ⟨hm, rfl, ?_, ha, ?_⟩
  · rw [hd, hm]
    norm_num
  · rw [ha, addDataPoint_maxDataPoints, hm]
    norm_num

/-- C3: after construction and any sequence of `addDataPoint()` calls, `labels`
and `dataPoints` have the same length, and `getData()` returns a labels list
and a data list that are the current `labels` and `dataPoints` and have equal
length. -/
theorem labels_dataPoints_lock_step (R : Runtime) (page : Page) (options : Options)
    (now : Int) (ticks : List Tick) :
    (ticks.foldl (addDataPoint R) (construct page options now)).labels.length =
      (ticks.foldl (addDataPoint R) (construct page options now)).dataPoints.length ∧
    (getData (ticks.foldl (addDataPoint R) (construct page options now))).labels =
      (ticks.foldl (addDataPoint R) (construct page options now)).labels ∧
    (getData (ticks.foldl (addDataPoint R) (construct page options now))).data =
      (ticks.foldl (addDataPoint R) (construct page options now)).dataPoints ∧
    (getData (ticks.foldl (addDataPoint R) (construct page options now))).labels.length =
      (getData (ticks.foldl (addDataPoint R) (construct page options now))).data.length := by
  have h := lockStep_foldl R ticks (construct page options now) rfl
  exact ⟨h, rfl, rfl, h⟩

theorem update_paused (R : Runtime) (s : LiveAnalytics) (t : Tick) (h : s.paused = true) :
    update R s t = s := by
  simp [update, h]

theorem foldl_update_paused (R : Runtime) (ticks : List Tick) (s : LiveAnalytics)
    (h : s.paused = true) : ticks.foldl (update R) s = s := by
  induction ticks with
  | nil => rfl
  | cons t ts ih => rw [List.foldl_cons, update_paused R s t h, ih]

/-- C4: after `pause()`, any number of sampling ticks (`update()` calls) leaves
`dataPoints` and `labels` as they were before the pause, and the instance
stays paused. -/
theorem paused_ticks_add_nothing (R : Runtime) (s : LiveAnalytics) (ticks : List Tick) :
    (ticks.foldl (update R) (pause s)).dataPoints = s.dataPoints ∧
    (ticks.foldl (update R) (pause s)).labels = s.labels ∧
    (ticks.foldl (update R) (pause s)).paused = true := by
  obtain ⟨hd, hl, -, -, hp⟩ := pause_fields s
  rw [foldl_update_paused R ticks (pause s) hp]
  exact ⟨hd, hl, hp⟩

/-- C5: `pause()` followed by `resume()` leaves `dataPoints` and `labels` as they
were and sets `paused` to false; the next `update()` tick then puts exactly
one new sample after the existing ones, which keep their order (when the
buffer with the new sample exceeds `maxDataPoints`, the sliding window drops
the oldest one; for a capacity that is a natural number `N` this is when the
buffer already held `N` samples or more). -/
theorem resume_keeps_history (R : Runtime) (s : LiveAnalytics) (t : Tick) :
    (resume (pause s)).dataPoints = s.dataPoints ∧
    (resume (pause s)).labels = s.labels ∧
    (resume (pause s)).paused = false ∧
    (update R (resume (pause s)) t).dataPoints =
      (if (s.dataPoints.length : ℚ) + 1 ≤ s.maxDataPoints then
          s.dataPoints ++ [sampleValue R s t]
        else (s.dataPoints ++ [sampleValue R s t]).tail) ∧
    (update R (resume (pause s)) t).labels =
      (if (s.dataPoints.length : ℚ) + 1 ≤ s.maxDataPoints then s.labels ++ [sampleLabel R t]
        else (s.labels ++ [sampleLabel R t]).tail) ∧
    (∀ N : Nat, s.maxDataPoints = N →
      (update R (resume (pause s)) t).dataPoints =
        (if s.dataPoints.length < N then s.dataPoints ++ [sampleValue R s t]
          else (s.dataPoints ++ [sampleValue R s t]).tail) ∧
      (update R (resume (pause s)) t).labels =
        (if s.dataPoints.length < N then s.labels ++ [sampleLabel R t]
          else (s.labels ++ [sampleLabel R t]).tail)) := by
  obtain ⟨hd, hl, hm, hst, -⟩ := pause_fields s
  obtain ⟨rd, rl, rm, rst, rp⟩ := resume_fields (pause s)
  have hu : update R (resume (pause s)) t = addDataPoint R (resume (pause s)) t := by
    simp [update, rp]
  have eD : (update R (resume (pause s)) t).dataPoints =
      pushShift s.dataPoints (sampleValue R s t) (s.dataPoints.length + 1) s.maxDataPoints := by
    rw [hu, addDataPoint_dataPoints, rd, hd, rm, hm, sampleValue_congr R s _ t (rst.trans hst)]
  have eL : (update R (resume (pause s)) t).labels =
      pushShift s.labels (sampleLabel R t) (s.dataPoints.length + 1) s.maxDataPoints := by
    rw [hu, addDataPoint_labels, rd, hd, rl, hl, rm, hm]
  refine ⟨rd.trans hd, rl.trans hl, rp, ?_, ?_, fun N hN => ⟨?_, ?_⟩⟩
  · rw [eD]
    unfold pushShift
    by_cases h : (s.dataPoints.length : ℚ) + 1 ≤ s.maxDataPoints
    · rw [if_pos h, if_neg (by push_cast; exact not_lt.2 h)]
    · rw [if_neg h, if_pos (by push_cast; exact not_le.1 h)]
  · rw [eL]
    unfold pushShift
    by_cases h : (s.dataPoints.length : ℚ) + 1 ≤ s.maxDataPoints
    · rw [if_pos h, if_neg (by push_cast; exact not_lt.2 h)]
    · rw [if_neg h, if_pos (by push_cast; exact not_le.1 h)]
  · rw [eD, hN, pushShift_natCast]
    by_cases h : s.dataPoints.length < N
    · rw [if_pos h, if_neg (by omega)]
    · rw [if_neg h, if_pos (by omega)]
  · rw [eL, hN, pushShift_natCast]
    by_cases h : s.dataPoints.length < N
    · rw [if_pos h, if_neg (by omega)]
    · rw [if_neg h, if_pos (by omega)]

/-- C6: for every elapsed time (every pair of clock readings) and every random
draw, `generateDataPoint()` returns a value `v` with `0 ≤ v ≤ 100`. -/
theorem generateDataPoint_in_range (R : Runtime) (s : LiveAnalytics) (now : Int) (random : ℚ) :
    0 ≤ generateDataPoint R s now random ∧ generateDataPoint R s now random ≤ 100 := by
  unfold generateDataPoint
  exact ⟨le_max_left _ _, max_le (by norm_num) (min_le_left _ _)⟩

theorem truthyHandle_iff (h : Option Nat) : truthyHandle h = true ↔ ∃ n, h = some (n + 1) := by
  unfold truthyHandle
  constructor
  · intro ht
    split at ht
    · exact ⟨_, rfl⟩
    · exact absurd ht (by simp)
  · rintro ⟨n, rfl⟩
    rfl

theorem pause_handles (s : LiveAnalytics) :
    (pause s).updateTimer = s.updateTimer ∧ (pause s).chart = s.chart ∧
    (pause s).page.intervals = s.page.intervals ∧
    (pause s).page.chartsDestroyed = s.page.chartsDestroyed ∧
    (pause s).page.chartsCreated = s.page.chartsCreated := by
  unfold pause
  dsimp only
  split <;> simp [log, cancelAnimationFrame]

theorem pause_cancels_frame (s : LiveAnalytics) (n : Nat) (h : s.animationFrame = some (n + 1)) :
    (pause s).animationFrame = none ∧
    (pause s).page.frames = s.page.frames.filter (fun x => x != n + 1) := by
  unfold pause
  simp [h, truthyHandle, log, cancelAnimationFrame]

/-- A freshly constructed instance is running when the page hands out positive
timer and animation-frame handles. -/
theorem running_construct (page : Page) (options : Options) (now : Int)
    (ht : 0 < page.nextTimer) (hf : 0 < page.nextFrame) :
    Running (construct page options now) := by
  obtain ⟨t, ht⟩ := Nat.exists_eq_succ_of_ne_zero (Nat.pos_iff_ne_zero.1 ht)
  obtain ⟨f, hf⟩ := Nat.exists_eq_succ_of_ne_zero (Nat.pos_iff_ne_zero.1 hf)
  refine ⟨rfl, ?_, ?_, ?_⟩
  · simp [construct, start, initializeChart, setInterval, requestAnimationFrame, truthyHandle, ht]
  · simp [construct, start, initializeChart, setInterval, requestAnimationFrame, truthyHandle, hf]
  · simp [construct, start, initializeChart]

/-- C11: `destroy()` on a running instance leaves `updateTimer`, `animationFrame`
and `chart` at `null` and `paused` at `true`, has called the chart's `destroy()`
exactly once, and has cancelled both the interval timer and the pending
animation frame. -/
theorem destroy_cancels_timers_and_chart (s : LiveAnalytics) (h : Running s) :
    (destroy s).updateTimer = none ∧ (destroy s).animationFrame = none ∧
    (destroy s).chart = none ∧ (destroy s).paused = true ∧
    (destroy s).page.chartsDestroyed = s.page.chartsDestroyed + 1 ∧
    (∀ t, s.updateTimer = some t → t ∉ (destroy s).page.intervals) ∧
    (∀ f, s.animationFrame = some f → f ∉ (destroy s).page.frames) := by
  obtain ⟨-, hT, hF, hC⟩ := h
  obtain ⟨t, hT⟩ := (truthyHandle_iff _).1 hT
  obtain ⟨f, hF⟩ := (truthyHandle_iff _).1 hF
  obtain ⟨c, hC⟩ := Option.ne_none_iff_exists'.1 hC
  obtain ⟨pu, pc, pi, pd, -⟩ := pause_handles s
  obtain ⟨pa, pf⟩ := pause_cancels_frame s f hF
  obtain ⟨-, -, -, -, pp⟩ := pause_fields s
  have hd : destroy s =
      { pause s with
        page := log { clearInterval (pause s).page (t + 1) with
          chartsDestroyed := (pause s).page.chartsDestroyed + 1 } "Live Analytics destroyed"
        updateTimer := none
        chart := none } := by
    unfold destroy
    simp [pu, pc, hT, hC, truthyHandle, log, clearInterval]
  rw [hd]
  refine ⟨rfl, pa, rfl, pp, ?_, ?_, ?_⟩
  · simp [log, clearInterval, pd]
  · intro t1 ht1
    rw [hT] at ht1
    cases ht1
    simp [log, clearInterval, pi]
  · intro f1 hf1
    rw [hF] at hf1
    cases hf1
    simp [log, clearInterval, pf]

/-- Witness for C11: the instance constructed on the empty page. -/
theorem destroy_cancels_timers_and_chart_witness :
    (destroy smallInstance).updateTimer = none ∧ (destroy smallInstance).animationFrame = none ∧
    (destroy smallInstance).chart = none ∧ (destroy smallInstance).paused = true ∧
    (destroy smallInstance).page.chartsDestroyed = smallInstance.page.chartsDestroyed + 1 ∧
    (∀ t, smallInstance.updateTimer = some t → t ∉ (destroy smallInstance).page.intervals) ∧
    (∀ f, smallInstance.animationFrame = some f → f ∉ (destroy smallInstance).page.frames) :=
  destroy_cancels_timers_and_chart smallInstance
    (running_construct emptyPage _ 1000 (by decide) (by decide))


theorem destroy_fields (s : LiveAnalytics) :
    (destroy s).paused = true ∧ (destroy s).dataPoints = s.dataPoints ∧
    (destroy s).labels = s.labels ∧ (destroy s).maxDataPoints = s.maxDataPoints := by
  obtain ⟨hd, hl, hm, -, hp⟩ := pause_fields s
  unfold destroy
  dsimp only
  split <;> split <;> simp [hd, hl, hm, hp]

theorem resume_updateTimer (s : LiveAnalytics) : (resume s).updateTimer = s.updateTimer := by
  unfold resume
  cases h : s.paused <;> simp [requestAnimationFrame]

theorem toggle_of_paused (s : LiveAnalytics) (h : s.paused = true) : (toggle s).1 = resume s := by
  simp [toggle, h]

/-- C12, as the code has it: after `destroy()`, `update()` is a no-op;
`addDataPoint()` leaves `paused` and both timer handles as they are, and
`resume()` and `toggle()` leave `dataPoints`, `labels` and `updateTimer` as
they are. -/
theorem after_destroy_what_stays (R : Runtime) (s : LiveAnalytics) (t : Tick) :
    update R (destroy s) t = destroy s ∧
    ((addDataPoint R (destroy s) t).paused = (destroy s).paused ∧
      (addDataPoint R (destroy s) t).updateTimer = (destroy s).updateTimer ∧
      (addDataPoint R (destroy s) t).animationFrame = (destroy s).animationFrame) ∧
    ((resume (destroy s)).dataPoints = (destroy s).dataPoints ∧
      (resume (destroy s)).labels = (destroy s).labels ∧
      (resume (destroy s)).updateTimer = (destroy s).updateTimer) ∧
    ((toggle (destroy s)).1.dataPoints = (destroy s).dataPoints ∧
      (toggle (destroy s)).1.labels = (destroy s).labels ∧
      (toggle (destroy s)).1.updateTimer = (destroy s).updateTimer) := by
  obtain ⟨hp, -, -, -⟩ := destroy_fields s
  obtain ⟨rd, rl, -, -, -⟩ := resume_fields (destroy s)
  have ru := resume_updateTimer (destroy s)
  refine ⟨update_paused R _ t hp, ⟨rfl, rfl, rfl⟩, ⟨rd, rl, ru⟩, ?_⟩
  rw [toggle_of_paused _ hp]
  exact ⟨rd, rl, ru⟩

/-- Counterexample to C12 as stated: on the destroyed example instance,
`addDataPoint()` still stores a sample, and `resume()` and `toggle()` clear
`paused` and set `animationFrame` to a new handle. -/
theorem after_destroy_mutators_still_act :
    (destroy smallInstance).dataPoints = [] ∧
    (addDataPoint exampleRuntime (destroy smallInstance) oneTick).dataPoints.length = 1 ∧
    (destroy smallInstance).paused = true ∧
    (resume (destroy smallInstance)).paused = false ∧
    (toggle (destroy smallInstance)).1.paused = false ∧
    (destroy smallInstance).animationFrame = none ∧
    (resume (destroy smallInstance)).animationFrame = some 2 := by
  refine ⟨rfl, ?_, rfl, rfl, rfl, rfl, rfl⟩
  rw [addDataPoint_dataPoints, pushShift_length]
  rfl

/-- C13: when the canvas is absent, or yields no 2D context, the constructor
returns without throwing, before any configuration: the instance has none of
the configured fields, no chart was created, and neither the interval timer
nor the animation-frame loop was started. -/
theorem constructor_aborts_without_canvas (page : Page) (canvasId : String)
    (canvas context : Bool) (options : Options) (now : Int)
    (h : canvas = false ∨ context = false) :
    ∃ d, create page canvasId canvas context options now = Instance.disabled d ∧
      d.paused = none ∧ d.animationFrame = none ∧ SameTimersAndCharts page d.page ∧
      d.page.console = page.console := by
  refine ⟨{ paused := none, animationFrame := none,
            page := logError page ("Canvas element with ID '" ++ canvasId ++ "' not found") },
    ?_, rfl, rfl, ⟨rfl, rfl, rfl, rfl, rfl, rfl, rfl, rfl⟩, rfl⟩
  unfold create
  rcases h with h | h <;> cases canvas <;> cases context <;> simp at h ⊢

/-- Witness for C13: the canvas `missingChart` is absent from the empty page. -/
theorem constructor_aborts_without_canvas_witness :
    ∃ d, disabledInstance = Instance.disabled d ∧
      d.paused = none ∧ d.animationFrame = none ∧ SameTimersAndCharts emptyPage d.page ∧
      d.page.console = emptyPage.console :=
  constructor_aborts_without_canvas emptyPage "missingChart" false false _ 1000 (Or.inl rfl)

/-- C14, as the code has it: on a disabled instance as the constructor returns
it, `pause()`, `resume()`, `toggle()` and `destroy()` do not throw and touch no
timer, animation frame, chart or canvas event; `resume()` changes nothing, and
the other three leave `paused` at `true` (with `toggle()` returning `false`). -/
theorem disabled_instance_safe_operations (page : Page) (canvasId : String)
    (canvas context : Bool) (options : Options) (now : Int)
    (h : canvas = false ∨ context = false) :
    Instance.resume (create page canvasId canvas context options now) =
      Except.ok (create page canvasId canvas context options now) ∧
    (∃ d, Instance.pause (create page canvasId canvas context options now) =
        Except.ok (Instance.disabled d) ∧ d.paused = some true ∧
        SameTimersAndCharts (create page canvasId canvas context options now).page d.page) ∧
    (∃ d, Instance.toggle (create page canvasId canvas context options now) =
        Except.ok (Instance.disabled d, false) ∧ d.paused = some true ∧
        SameTimersAndCharts (create page canvasId canvas context options now).page d.page) ∧
    (∃ d, Instance.destroy (create page canvasId canvas context options now) =
        Except.ok (Instance.disabled d) ∧ d.paused = some true ∧
        SameTimersAndCharts (create page canvasId canvas context options now).page d.page) := by
  have hc : create page canvasId canvas context options now =
      Instance.disabled
        { paused := none
          animationFrame := none
          page := logError page ("Canvas element with ID '" ++ canvasId ++ "' not found") } := by
    unfold create
    rcases h with h | h <;> cases canvas <;> cases context <;> simp at h ⊢
  rw [hc]
  refine ⟨rfl, ⟨_, rfl, rfl, ?_⟩, ⟨_, rfl, rfl, ?_⟩, ⟨_, rfl, rfl, ?_⟩⟩ <;>
    exact ⟨rfl, rfl, rfl, rfl, rfl, rfl, rfl, rfl⟩

/-- Witness for C14 as amended: the disabled example instance. -/
theorem disabled_instance_safe_operations_witness :
    Instance.resume disabledInstance = Except.ok disabledInstance ∧
    (∃ d, Instance.pause disabledInstance = Except.ok (Instance.disabled d) ∧
        d.paused = some true ∧ SameTimersAndCharts disabledInstance.page d.page) ∧
    (∃ d, Instance.toggle disabledInstance = Except.ok (Instance.disabled d, false) ∧
        d.paused = some true ∧ SameTimersAndCharts disabledInstance.page d.page) ∧
    (∃ d, Instance.destroy disabledInstance = Except.ok (Instance.disabled d) ∧
        d.paused = some true ∧ SameTimersAndCharts disabledInstance.page d.page) :=
  disabled_instance_safe_operations emptyPage "missingChart" false false _ 1000 (Or.inl rfl)

/-- Counterexample to C14 as stated: on the disabled example instance,
`addDataPoint()`, `update()`, `getData()` and `getStatus()` throw, and
`pause()` does not leave the instance as it was. -/
theorem disabled_instance_operations_throw :
    Instance.addDataPoint exampleRuntime disabledInstance oneTick =
      Except.error "TypeError: Cannot read properties of undefined (reading 'push')" ∧
    Instance.update exampleRuntime disabledInstance oneTick =
      Except.error "TypeError: Cannot read properties of undefined (reading 'push')" ∧
    Instance.getData disabledInstance = Except.error "TypeError: this.labels is not iterable" ∧
    Instance.getStatus disabledInstance 2000 =
      Except.error "TypeError: Cannot read properties of undefined (reading 'length')" ∧
    Instance.pause disabledInstance ≠ Except.ok disabledInstance := by
  refine ⟨rfl, rfl, rfl, rfl, ?_⟩
  intro hp
  have h1 : (Instance.disabled (Disabled.pause
      { paused := none, animationFrame := none,
        page := logError emptyPage "Canvas element with ID 'missingChart' not found" }) :
        Instance) = disabledInstance := Except.ok.inj hp
  have h2 := Instance.disabled.inj h1
  have h3 := congrArg Disabled.paused h2
  exact absurd h3 (by decide)


/-- C15: for every options object the constructor sets `maxDataPoints`,
`updateInterval` and `maxFPS` to the supplied values when these are given and
positive, and to 50, 2000 and 30 when they are not given; `frameInterval` is
`1000 / maxFPS`. -/
theorem constructor_option_handling (page : Page) (options : Options) (now : Int) :
    (∀ n, 0 < n → options.maxDataPoints = some n →
      (construct page options now).maxDataPoints = n) ∧
    (options.maxDataPoints = none → (construct page options now).maxDataPoints = 50) ∧
    (∀ n, 0 < n → options.updateInterval = some n →
      (construct page options now).updateInterval = n) ∧
    (options.updateInterval = none → (construct page options now).updateInterval = 2000) ∧
    (∀ n, 0 < n → options.maxFPS = some n → (construct page options now).maxFPS = n) ∧
    (options.maxFPS = none → (construct page options now).maxFPS = 30) ∧
    (construct page options now).frameInterval =
      1000 / ((construct page options now).maxFPS : ℚ) := by
  obtain ⟨h1, h2, h3, h4, -⟩ := construct_config page options now
  refine ⟨fun n hn h => ?_, fun h => ?_, fun n hn h => ?_, fun h => ?_, fun n hn h => ?_,
    fun h => ?_, h4⟩
  · rw [h1, h, orDefault_some n 50 (ne_of_gt hn)]
  · rw [h1, h]; rfl
  · rw [h2, h, orDefault_some n 2000 (ne_of_gt hn)]
  · rw [h2, h]; rfl
  · rw [h3, h, orDefault_some n 30 (ne_of_gt hn)]
  · rw [h3, h]; rfl

/-- Witness for C15: the options `maxDataPoints: 100, updateInterval: 1000`,
with `maxFPS` not given. -/
theorem constructor_option_handling_witness :
    (construct emptyPage { maxDataPoints := some 100, updateInterval := some 1000, maxFPS := none }
      0).maxDataPoints = 100 ∧
    (construct emptyPage { maxDataPoints := some 100, updateInterval := some 1000, maxFPS := none }
      0).updateInterval = 1000 ∧
    (construct emptyPage { maxDataPoints := some 100, updateInterval := some 1000, maxFPS := none }
      0).maxFPS = 30 :=
  ⟨(constructor_option_handling emptyPage
      { maxDataPoints := some 100, updateInterval := some 1000, maxFPS := none } 0).1
      100 (by decide) rfl,
   (constructor_option_handling emptyPage
      { maxDataPoints := some 100, updateInterval := some 1000, maxFPS := none } 0).2.2.1
      1000 (by decide) rfl,
   (constructor_option_handling emptyPage
      { maxDataPoints := some 100, updateInterval := some 1000, maxFPS := none } 0).2.2.2.2.2.1
      rfl⟩

theorem animate_paused (s : LiveAnalytics) (t : ℚ) (h : s.paused = true) :
    animate s t = Except.ok s := by
  simp [animate, h]

/-- On an unpaused instance whose chart is `null`, a due `animate` call throws. -/
theorem animate_without_chart (s : LiveAnalytics) (t : ℚ) (hp : s.paused = false)
    (hc : s.chart = none) (ht : t - s.lastFrameTime ≥ s.frameInterval) :
    animate s t = Except.error "TypeError: Cannot read properties of null (reading 'update')" := by
  simp [animate, hp, hc, ht]

theorem step_keeps_chart (R : Runtime) (s : LiveAnalytics) (c : Call) :
    (step R s c).chart = s.chart ∧ (step R s c).frameInterval = s.frameInterval ∧
    (step R s c).maxFPS = s.maxFPS := by
  have hpause : (pause s).chart = s.chart ∧ (pause s).frameInterval = s.frameInterval ∧
      (pause s).maxFPS = s.maxFPS := by
    unfold pause
    dsimp only
    split <;> simp
  have hresume : (resume s).chart = s.chart ∧ (resume s).frameInterval = s.frameInterval ∧
      (resume s).maxFPS = s.maxFPS := by
    unfold resume
    cases h : s.paused <;> simp [requestAnimationFrame]
  cases c with
  | addDataPoint t => exact ⟨rfl, rfl, rfl⟩
  | update t =>
    show (update R s t).chart = s.chart ∧ (update R s t).frameInterval = s.frameInterval ∧
      (update R s t).maxFPS = s.maxFPS
    unfold update
    split
    · exact ⟨rfl, rfl, rfl⟩
    · exact ⟨rfl, rfl, rfl⟩
  | pause => exact hpause
  | resume => exact hresume
  | toggle =>
    show (toggle s).1.chart = s.chart ∧ (toggle s).1.frameInterval = s.frameInterval ∧
      (toggle s).1.maxFPS = s.maxFPS
    unfold toggle
    dsimp only
    split
    · exact hresume
    · exact hpause

/-- Until `destroy()` is called the instance has its chart, and `frameInterval`
is `1000 / maxFPS`: both hold after the constructor and after any sequence of
`addDataPoint()`, `update()`, `pause()`, `resume()` and `toggle()` calls. -/
theorem chart_kept_until_destroy (R : Runtime) (page : Page) (options : Options) (now : Int)
    (calls : List Call) :
    (run R (construct page options now) calls).chart ≠ none ∧
    (run R (construct page options now) calls).frameInterval =
      1000 / ((run R (construct page options now) calls).maxFPS : ℚ) := by
  have key : ∀ (cs : List Call) (s : LiveAnalytics),
      (run R s cs).chart = s.chart ∧ (run R s cs).frameInterval = s.frameInterval ∧
      (run R s cs).maxFPS = s.maxFPS := by
    intro cs
    induction cs with
    | nil => intro s; exact ⟨rfl, rfl, rfl⟩
    | cons c cs ih =>
      intro s
      obtain ⟨h1, h2, h3⟩ := ih (step R s c)
      obtain ⟨g1, g2, g3⟩ := step_keeps_chart R s c
      exact ⟨h1.trans g1, h2.trans g2, h3.trans g3⟩
  obtain ⟨h1, h2, h3⟩ := key calls (construct page options now)
  obtain ⟨-, -, -, c4, c5⟩ := construct_config page options now
  rw [h1, h2, h3]
  exact ⟨c5, c4⟩

/-- What one `animate` call does to an unpaused instance that has a chart. -/
theorem animate_running (s : LiveAnalytics) (t : ℚ) (hp : s.paused = false)
    (hc : s.chart ≠ none) :
    ∃ s1, animate s t = Except.ok s1 ∧
      s1.paused = false ∧ s1.chart = s.chart ∧ s1.frameInterval = s.frameInterval ∧
      s1.maxFPS = s.maxFPS ∧
      (t - s.lastFrameTime ≥ s.frameInterval →
        s1.page.chartUpdates = s.page.chartUpdates + 1 ∧ s1.lastFrameTime = t) ∧
      (¬ t - s.lastFrameTime ≥ s.frameInterval →
        s1.page.chartUpdates = s.page.chartUpdates ∧ s1.lastFrameTime = s.lastFrameTime) := by
  obtain ⟨c, hc⟩ := Option.ne_none_iff_exists'.1 hc
  by_cases ht : t - s.lastFrameTime ≥ s.frameInterval
  · refine ⟨{ s with
        lastFrameTime := t
        animationFrame := some s.page.nextFrame
        page := { s.page with
          chartUpdates := s.page.chartUpdates + 1
          nextFrame := s.page.nextFrame + 1
          frames := s.page.frames ++ [s.page.nextFrame] } }, ?_, ?_⟩
    · simp only [animate, hp, hc, ht, requestAnimationFrame, Bool.not_false, if_true]
    · exact ⟨hp, rfl, rfl, rfl, fun _ => ⟨rfl, rfl⟩, fun h => absurd ht h⟩
  · refine ⟨{ s with
        animationFrame := some s.page.nextFrame
        page := { s.page with
          nextFrame := s.page.nextFrame + 1
          frames := s.page.frames ++ [s.page.nextFrame] } }, ?_, ?_⟩
    · simp only [animate, hp, ht, requestAnimationFrame, Bool.not_false, if_true, if_false]
    · exact ⟨hp, rfl, rfl, rfl, fun h => absurd h ht, fun _ => ⟨rfl, rfl⟩⟩

/-- A run of `animate` calls never throws on an instance that has a chart; any
two consecutive redraws are at least `frameInterval` apart, the first one is
at least `frameInterval` after `lastFrameTime`, and a paused instance does
not redraw. -/
theorem animateAll_spacing (ts : List ℚ) (s : LiveAnalytics) (hc : s.chart ≠ none) :
    ∃ s1 redraws, animateAll s ts = Except.ok (s1, redraws) ∧
      redraws.Chain (fun a b => b - a ≥ s.frameInterval) s.lastFrameTime ∧
      (s.paused = true → redraws = []) := by
  induction ts generalizing s with
  | nil => exact ⟨s, [], rfl, List.Chain.nil, fun _ => rfl⟩
  | cons t ts ih =>
    cases hp : s.paused with
    | true =>
      obtain ⟨s2, redraws, h2, -, hnone⟩ := ih s hc
      refine ⟨s2, redraws, ?_, ?_, fun _ => hnone hp⟩
      · simp only [animateAll, animate_paused s t hp, h2]
        simp
      · rw [hnone hp]
        exact List.Chain.nil
    | false =>
      obtain ⟨s1, h1, -, hc1, hf1, -, hyes, hno⟩ := animate_running s t hp hc
      obtain ⟨s2, redraws, h2, hchain, -⟩ := ih s1 (by rw [hc1]; exact hc)
      by_cases ht : t - s.lastFrameTime ≥ s.frameInterval
      · obtain ⟨hu, hl⟩ := hyes ht
        refine ⟨s2, t :: redraws, ?_, ?_, fun h => absurd h (by simp)⟩
        · simp only [animateAll, h1, h2]
          simp [hu]
        · rw [hl, hf1] at hchain
          exact List.Chain.cons ht hchain
      · obtain ⟨hu, hl⟩ := hno ht
        refine ⟨s2, redraws, ?_, ?_, fun h => absurd h (by simp)⟩
        · simp only [animateAll, h1, h2]
          simp [hu]
        · rw [hl, hf1] at hchain
          exact hchain

/-- C16, as the code has it: on an instance that still has its chart (no
`destroy()` since construction), whose `frameInterval` is `1000 / maxFPS` as
the constructor sets it, `animate(t)` while not paused redraws the chart
exactly when `t - lastFrameTime ≥ 1000 / maxFPS` and sets `lastFrameTime` to
`t` exactly then; while paused it does nothing.  Over any run of `animate`
calls no call throws, two consecutive redraws are at least `1000 / maxFPS`
apart, and a paused instance never redraws. -/
theorem frame_rate_cap (s : LiveAnalytics) (hc : s.chart ≠ none)
    (hf : s.frameInterval = 1000 / (s.maxFPS : ℚ)) :
    (∀ t, s.paused = false → t - s.lastFrameTime ≥ 1000 / (s.maxFPS : ℚ) →
      ∃ s1, animate s t = Except.ok s1 ∧
        s1.page.chartUpdates = s.page.chartUpdates + 1 ∧ s1.lastFrameTime = t) ∧
    (∀ t, s.paused = false → ¬ t - s.lastFrameTime ≥ 1000 / (s.maxFPS : ℚ) →
      ∃ s1, animate s t = Except.ok s1 ∧
        s1.page.chartUpdates = s.page.chartUpdates ∧ s1.lastFrameTime = s.lastFrameTime) ∧
    (∀ t, s.paused = true → animate s t = Except.ok s) ∧
    (∀ ts, ∃ s1 redraws, animateAll s ts = Except.ok (s1, redraws) ∧
      redraws.Chain' (fun a b => b - a ≥ 1000 / (s.maxFPS : ℚ)) ∧
      (s.paused = true → redraws = [])) := by
  refine ⟨fun t hp ht => ?_, fun t hp ht => ?_, fun t hp => animate_paused s t hp, fun ts => ?_⟩
  · obtain ⟨s1, h1, -, -, -, -, hyes, -⟩ := animate_running s t hp hc
    exact ⟨s1, h1, hyes (by rw [hf]; exact ht)⟩
  · obtain ⟨s1, h1, -, -, -, -, -, hno⟩ := animate_running s t hp hc
    exact ⟨s1, h1, hno (by rw [hf]; exact ht)⟩
  · obtain ⟨s1, redraws, h1, hchain, hnone⟩ := animateAll_spacing ts s hc
    rw [hf] at hchain
    have hchain' : List.Chain' (fun a b => b - a ≥ 1000 / (s.maxFPS : ℚ))
        (s.lastFrameTime :: redraws) := hchain
    exact ⟨s1, redraws, h1, hchain'.tail, hnone⟩


/-- Witness for C16: the example instance (30 frames per second, last redraw at
time 0) redraws at time 40, and a run of four `animate` calls keeps its
redraws apart. -/
theorem frame_rate_cap_witness :
    (∃ s1, animate smallInstance 40 = Except.ok s1 ∧
      s1.page.chartUpdates = smallInstance.page.chartUpdates + 1 ∧ s1.lastFrameTime = 40) ∧
    (∃ s1 redraws, animateAll smallInstance [10, 40, 50, 74] = Except.ok (s1, redraws) ∧
      redraws.Chain' (fun a b => b - a ≥ 1000 / (smallInstance.maxFPS : ℚ)) ∧
      (smallInstance.paused = true → redraws = [])) :=
  ⟨(frame_rate_cap smallInstance (construct_config emptyPage _ 1000).2.2.2.2
      (construct_config emptyPage _ 1000).2.2.2.1).1 40 rfl
      (by
        show (40 : ℚ) - 0 ≥ 1000 / ((30 : ℕ) : ℚ)
        norm_num),
   (frame_rate_cap smallInstance (construct_config emptyPage _ 1000).2.2.2.2
      (construct_config emptyPage _ 1000).2.2.2.1).2.2.2 [10, 40, 50, 74]⟩

/-- Counterexample to C16 as stated: after `destroy()` and then `resume()` the
example instance is not paused and has no chart; `animate(40)` is due (the
last redraw was at 0 and `1000 / maxFPS` is less than 40), and it throws
instead of redrawing. -/
theorem animate_after_destroy_throws :
    (resume (destroy smallInstance)).paused = false ∧
    (resume (destroy smallInstance)).chart = none ∧
    (40 : ℚ) - (resume (destroy smallInstance)).lastFrameTime ≥
      1000 / ((resume (destroy smallInstance)).maxFPS : ℚ) ∧
    animate (resume (destroy smallInstance)) 40 =
      Except.error "TypeError: Cannot read properties of null (reading 'update')" ∧
    (∀ s1, animate (resume (destroy smallInstance)) 40 ≠ Except.ok s1) := by
  have ht : (40 : ℚ) - (resume (destroy smallInstance)).lastFrameTime ≥
      (resume (destroy smallInstance)).frameInterval := by
    show (40 : ℚ) - 0 ≥ 1000 / 30
    norm_num
  have he := animate_without_chart (resume (destroy smallInstance)) 40 rfl rfl ht
  refine ⟨rfl, rfl, ht, he, fun s1 h => ?_⟩
  rw [he] at h
  exact absurd h (by simp)

/-- C17: `toggle()` flips `paused` and returns the new running state, `true`
exactly when the instance is not paused after the call.  From a running
instance the first `toggle()` returns `false` and leaves `paused` at `true`,
the second returns `true` and leaves `paused` at `false`; two calls bring
`paused` back to its original value. -/
theorem toggle_flips_paused (s : LiveAnalytics) :
    (toggle s).1.paused = !s.paused ∧
    (toggle s).2 = !(toggle s).1.paused ∧
    (s.paused = false →
      (toggle s).2 = false ∧ (toggle s).1.paused = true ∧
      (toggle (toggle s).1).2 = true ∧ (toggle (toggle s).1).1.paused = false) ∧
    (toggle (toggle s).1).1.paused = s.paused := by
  have flip : ∀ u : LiveAnalytics, (toggle u).1.paused = !u.paused := by
    intro u
    cases hu : u.paused with
    | true =>
      rw [toggle_of_paused u hu]
      exact (resume_fields u).2.2.2.2
    | false =>
      have : (toggle u).1 = pause u := by simp [toggle, hu]
      rw [this]
      exact (pause_fields u).2.2.2.2
  have ret : ∀ u : LiveAnalytics, (toggle u).2 = !(toggle u).1.paused := fun _ => rfl
  refine ⟨flip s, ret s, fun hp => ?_, ?_⟩
  · have h1 : (toggle s).1.paused = true := by rw [flip s, hp]; rfl
    have h2 : (toggle (toggle s).1).1.paused = false := by rw [flip, h1]; rfl
    exact ⟨by rw [ret, h1]; rfl, h1, by rw [ret, h2]; rfl, h2⟩
  · rw [flip, flip, Bool.not_not]

/-- Witness for C17: the running example instance. -/
theorem toggle_flips_paused_witness :
    (toggle smallInstance).2 = false ∧ (toggle smallInstance).1.paused = true ∧
    (toggle (toggle smallInstance).1).2 = true ∧
    (toggle (toggle smallInstance).1).1.paused = false :=
  (toggle_flips_paused smallInstance).2.2.1 rfl


/-- C30: for every options object, whatever numbers it holds, after construction
`maxDataPoints`, `updateInterval` and `maxFPS` are not 0; a supplied 0 is
replaced by 50, 2000 and 30; so the buffer capacity is not 0 and
`frameInterval`, which is `1000 / maxFPS`, has a non-zero divisor and is not 0;
it is positive when the supplied `maxFPS` is not negative. -/
theorem zero_options_fall_back_to_defaults (page : Page) (options : Options) (now : Int) :
    (construct page options now).maxDataPoints ≠ 0 ∧
    (construct page options now).updateInterval ≠ 0 ∧
    (construct page options now).maxFPS ≠ 0 ∧
    (options.maxDataPoints = some 0 → (construct page options now).maxDataPoints = 50) ∧
    (options.updateInterval = some 0 → (construct page options now).updateInterval = 2000) ∧
    (options.maxFPS = some 0 → (construct page options now).maxFPS = 30) ∧
    (construct page options now).frameInterval =
      1000 / ((construct page options now).maxFPS : ℚ) ∧
    (construct page options now).frameInterval ≠ 0 ∧
    ((∀ q, options.maxFPS = some q → 0 ≤ q) → 0 < (construct page options now).frameInterval) := by
  obtain ⟨h1, h2, h3, h4, -⟩ := construct_config page options now
  have p1 := orDefault_ne_zero options.maxDataPoints 50 (by norm_num)
  have p2 := orDefault_ne_zero options.updateInterval 2000 (by norm_num)
  have p3 := orDefault_ne_zero options.maxFPS 30 (by norm_num)
  refine ⟨by rw [h1]; exact p1, by rw [h2]; exact p2, by rw [h3]; exact p3,
    fun h => ?_, fun h => ?_, fun h => ?_, h4, ?_, fun hq => ?_⟩
  · rw [h1, h, orDefault_zero]
  · rw [h2, h, orDefault_zero]
  · rw [h3, h, orDefault_zero]
  · rw [h4, h3]
    exact div_ne_zero (by norm_num) p3
  · rw [h4, h3]
    exact div_pos (by norm_num) (orDefault_pos options.maxFPS 30 (by norm_num) hq)

/-- Witness for C30: every option supplied as 0. -/
theorem zero_options_fall_back_to_defaults_witness :
    (construct emptyPage { maxDataPoints := some 0, updateInterval := some 0, maxFPS := some 0 }
      0).maxDataPoints = 50 ∧
    (construct emptyPage { maxDataPoints := some 0, updateInterval := some 0, maxFPS := some 0 }
      0).updateInterval = 2000 ∧
    (construct emptyPage { maxDataPoints := some 0, updateInterval := some 0, maxFPS := some 0 }
      0).maxFPS = 30 :=
  ⟨(zero_options_fall_back_to_defaults emptyPage
      { maxDataPoints := some 0, updateInterval := some 0, maxFPS := some 0 } 0).2.2.2.1 rfl,
   (zero_options_fall_back_to_defaults emptyPage
      { maxDataPoints := some 0, updateInterval := some 0, maxFPS := some 0 } 0).2.2.2.2.1 rfl,
   (zero_options_fall_back_to_defaults emptyPage
      { maxDataPoints := some 0, updateInterval := some 0, maxFPS := some 0 } 0).2.2.2.2.2.1 rfl⟩

theorem timersOk_pause (s : LiveAnalytics) (h : TimersOk s) : TimersOk (pause s) := by
  obtain ⟨h1, h2, hi, hf, -⟩ := h
  have hframes : (pause s).page.frames = [] := by
    rcases hf with hf | ⟨f, ha, hf⟩
    · unfold pause
      dsimp only
      split <;> simp [log, cancelAnimationFrame, hf]
    · rw [(pause_cancels_frame s f ha).2, hf]
      simp
  obtain ⟨pu, -, pi, -, -⟩ := pause_handles s
  have hn : (pause s).page.nextTimer = s.page.nextTimer ∧
      (pause s).page.nextFrame = s.page.nextFrame := by
    unfold pause
    dsimp only
    split <;> simp [log, cancelAnimationFrame]
  refine ⟨by rw [hn.1]; exact h1, by rw [hn.2]; exact h2, ?_, Or.inl hframes, fun _ => hframes⟩
  rw [pu, pi]
  exact hi

theorem timersOk_resume (s : LiveAnalytics) (h : TimersOk s) : TimersOk (resume s) := by
  obtain ⟨h1, h2, hi, hf, hp⟩ := h
  unfold resume
  cases hpa : s.paused with
  | false => simpa [hpa] using ⟨h1, h2, hi, hf, fun h0 => absurd h0 (by simp [hpa])⟩
  | true =>
    obtain ⟨n, hn⟩ := Nat.exists_eq_succ_of_ne_zero (Nat.pos_iff_ne_zero.1 h2)
    simp only [if_true, requestAnimationFrame, log]
    refine ⟨h1, Nat.succ_pos _, hi, Or.inr ⟨n, ?_, ?_⟩, fun h0 => absurd h0 (by simp)⟩
    · simp [hn]
    · simp [hp hpa, hn]

theorem timersOk_destroy (s : LiveAnalytics) (h : TimersOk s) : TimersOk (destroy s) := by
  obtain ⟨h1, h2, hi, hf, hp⟩ := timersOk_pause s h
  have hframes : (pause s).page.frames = [] := hp (pause_fields s).2.2.2.2
  have hint : (destroy s).page.intervals = [] := by
    unfold destroy
    rcases hi with hi | ⟨t, hu, hi⟩
    · dsimp only
      split <;> split <;> simp [log, clearInterval, hi]
    · simp only [hu, truthyHandle, if_true, Option.getD_some]
      split <;> simp [log, clearInterval, hi]
  have hrest : (destroy s).page.frames = (pause s).page.frames ∧
      (destroy s).page.nextTimer = (pause s).page.nextTimer ∧
      (destroy s).page.nextFrame = (pause s).page.nextFrame ∧
      (destroy s).paused = true := by
    refine ⟨?_, ?_, ?_, (destroy_fields s).1⟩ <;>
    · unfold destroy
      dsimp only
      split <;> split <;> simp [log, clearInterval]
  refine ⟨by rw [hrest.2.1]; exact h1, by rw [hrest.2.2.1]; exact h2, Or.inl hint,
    Or.inl (by rw [hrest.1]; exact hframes), fun _ => by rw [hrest.1]; exact hframes⟩

theorem timersOk_addDataPoint (R : Runtime) (s : LiveAnalytics) (t : Tick) (h : TimersOk s) :
    TimersOk (addDataPoint R s t) := h

theorem timersOk_fireFrame (s : LiveAnalytics) (handle : Nat) (currentTime : ℚ)
    (h : TimersOk s) : TimersOk (fireFrame s handle currentTime) := by
  obtain ⟨h1, h2, hi, hf, hp⟩ := h
  unfold fireFrame
  by_cases hc : s.page.frames.contains handle = true
  · rw [if_pos hc]
    rcases hf with hf | ⟨f, ha, hf⟩
    · rw [hf] at hc
      exact absurd hc (by simp)
    · have hh : handle = f + 1 := by
        rw [hf] at hc
        simpa using hc
      subst hh
      have hnp : s.paused = false := by
        cases hpa : s.paused with
        | false => rfl
        | true =>
          have := hp hpa
          rw [hf] at this
          exact absurd this (by simp)
      obtain ⟨n, hn⟩ := Nat.exists_eq_succ_of_ne_zero (Nat.pos_iff_ne_zero.1 h2)
      by_cases ht : currentTime - s.lastFrameTime ≥ s.frameInterval
      · cases hch : s.chart with
        | none =>
          simp only [animate, hnp, ht, hch, cancelAnimationFrame, Bool.not_false, if_true]
          exact ⟨h1, h2, hi, Or.inl (by simp [hf]), fun h0 => absurd h0 (by simp [hnp])⟩
        | some c =>
          simp only [animate, hnp, ht, hch, cancelAnimationFrame, requestAnimationFrame,
            Bool.not_false, if_true]
          exact ⟨h1, Nat.succ_pos _, hi, Or.inr ⟨n, by simp [hn], by simp [hf, hn]⟩,
            fun h0 => absurd h0 (by simp [hnp])⟩
      · simp only [animate, hnp, ht, cancelAnimationFrame, requestAnimationFrame,
          Bool.not_false, if_true, if_false]
        exact ⟨h1, Nat.succ_pos _, hi, Or.inr ⟨n, by simp [hn], by simp [hf, hn]⟩,
          fun h0 => absurd h0 (by simp [hnp])⟩
  · rw [if_neg hc]
    exact ⟨h1, h2, hi, hf, hp⟩

theorem timersOk_step (R : Runtime) (s : LiveAnalytics) (e : TimerEvent) (h : TimersOk s)
    (he : e ≠ TimerEvent.start) : TimersOk (timerStep R s e) := by
  cases e with
  | start => exact absurd rfl he
  | pause => exact timersOk_pause s h
  | resume => exact timersOk_resume s h
  | toggle =>
    show TimersOk (toggle s).1
    unfold toggle
    dsimp only
    split
    · exact timersOk_resume s h
    · exact timersOk_pause s h
  | destroy => exact timersOk_destroy s h
  | frame handle currentTime => exact timersOk_fireFrame s handle currentTime h
  | tick handle t =>
    show TimersOk (fireInterval R s handle t)
    unfold fireInterval update
    split
    · split
      · exact timersOk_addDataPoint R s t h
      · exact h
    · exact h

theorem timersOk_construct (page : Page) (options : Options) (now : Int)
    (hi : page.intervals = []) (hf : page.frames = [])
    (ht : 0 < page.nextTimer) (hn : 0 < page.nextFrame) :
    TimersOk (construct page options now) := by
  obtain ⟨t, ht⟩ := Nat.exists_eq_succ_of_ne_zero (Nat.pos_iff_ne_zero.1 ht)
  obtain ⟨f, hn⟩ := Nat.exists_eq_succ_of_ne_zero (Nat.pos_iff_ne_zero.1 hn)
  refine ⟨?_, ?_, Or.inr ⟨t, ?_, ?_⟩, Or.inr ⟨f, ?_, ?_⟩, fun h0 => absurd h0 (by
    simp [construct, start])⟩ <;>
    simp [construct, start, initializeChart, setInterval, requestAnimationFrame, truthyHandle,
      log, hi, hf, ht, hn]

/-- Without a further `start()` call the timers stay two: in every state
reached from the constructor, on a page with no timers of its own, by
`pause()`, `resume()`, `toggle()`, `destroy()` and timer callbacks, at most
one interval is active and at most one animation frame is pending. -/
theorem timers_bounded_without_start (R : Runtime) (page : Page) (options : Options) (now : Int)
    (events : List TimerEvent) (hi : page.intervals = []) (hf : page.frames = [])
    (ht : 0 < page.nextTimer) (hn : 0 < page.nextFrame)
    (hns : TimerEvent.start ∉ events) :
    (timerRun R (construct page options now) events).page.intervals.length ≤ 1 ∧
    (timerRun R (construct page options now) events).page.frames.length ≤ 1 := by
  have key : ∀ (evs : List TimerEvent) (s : LiveAnalytics), TimersOk s →
      TimerEvent.start ∉ evs → TimersOk (timerRun R s evs) := by
    intro evs
    induction evs with
    | nil => intro s hs _; exact hs
    | cons e es ih =>
      intro s hs hmem
      have he : e ≠ TimerEvent.start := fun h => hmem (by rw [h]; exact List.mem_cons_self _ _)
      exact ih (timerStep R s e) (timersOk_step R s e hs he)
        (fun h => hmem (List.mem_cons_of_mem _ h))
  obtain ⟨-, -, hint, hfr, -⟩ := key events _ (timersOk_construct page options now hi hf ht hn) hns
  constructor
  · rcases hint with h | ⟨t, -, h⟩ <;> rw [h] <;> simp
  · rcases hfr with h | ⟨f, -, h⟩ <;> rw [h] <;> simp


/-- C28, evaluated on the code: after the constructor (which calls `start()`),
a second `start()` leaves one active interval but two pending animation-frame
callbacks; when the browser runs both, each requests its successor, so two
redraw loops keep running. -/
theorem second_start_leaves_two_pending_frames :
    smallInstance.page.intervals = [1] ∧ smallInstance.page.frames = [1] ∧
    (timerRun exampleRuntime smallInstance [TimerEvent.start]).page.intervals = [2] ∧
    (timerRun exampleRuntime smallInstance [TimerEvent.start]).page.frames = [1, 2] ∧
    (timerRun exampleRuntime smallInstance
      [TimerEvent.start, TimerEvent.frame 1 40, TimerEvent.frame 2 40]).page.frames = [3, 4] := by
  refine ⟨rfl, rfl, rfl, rfl, ?_⟩
  simp [timerRun, timerStep, fireFrame, animate, start, smallInstance, construct,
    initializeChart, emptyPage, setInterval, requestAnimationFrame, cancelAnimationFrame,
    clearInterval, log, truthyHandle, orDefault]
  norm_num

end LiveAnalytics

/-! ## Properties of the chart builders -/

namespace AdminCharts

theorem noValues_iff (values : Option (List ℚ)) : noValues values = true ↔ NoData values := by
  unfold noValues NoData
  cases values with
  | none => simp
  | some vs =>
    cases vs with
    | nil => simp
    | cons a as =>
      constructor
      · intro h
        refine Or.inr (Or.inr ⟨a :: as, rfl, ?_⟩)
        simpa using h
      · rintro (h | h | ⟨vs, hvs, hall⟩)
        · exact absurd h (by simp)
        · exact absurd h (by simp)
        · cases hvs
          simpa using hall

theorem noData_zeros : NoData (some [0, 0, 0]) :=
  Or.inr (Or.inr ⟨[0, 0, 0], rfl, by simp⟩)

/-- One builder past its canvas test, on a slot whose canvas has a
`.chart-container` ancestor: without data the placeholder is written and no
chart constructed, with data a chart is constructed. -/
theorem placeholder_or_chart (slot : ChartSlot) (values : Option (List ℚ)) (html : String)
    (config : ChartConfig) (hk : slot.container = true) :
    (NoData values ∧ noValues values = true ∧
        ∃ after, writePlaceholder slot html = Except.ok after ∧ TookPlaceholder slot after html) ∨
    (¬ NoData values ∧ noValues values = false ∧
        ConstructedChart slot (replaceChart slot config) config) := by
  by_cases h : noValues values = true
  · left
    refine ⟨(noValues_iff values).1 h, h,
      { slot with canvas := false, trace := slot.trace ++ [Effect.setContainerHTML html] },
      ?_, rfl, rfl⟩
    simp [writePlaceholder, hk]
  · right
    refine ⟨fun hn => h ((noValues_iff values).2 hn), by simpa using h, ?_, rfl, rfl⟩
    unfold replaceChart
    cases hc : slot.chart with
    | none => left; simp
    | some c => right; simp

/-- The four builders on a page where the canvas is present and has a
`.chart-container` ancestor: if the value list of the series is missing,
empty or all zeros, the builder writes its 'No ... data available'
placeholder and constructs no chart; otherwise it constructs a chart.  No
builder throws. -/
theorem builders_with_container (m : AdminCharts) (data : DashboardData) (theme : String) :
    (m.pipelineChart.canvas = true → m.pipelineChart.container = true →
      ∃ m1, buildPipelineChart m data theme = Except.ok m1 ∧
        ((NoData data.pipeline.values ∧
          TookPlaceholder m.pipelineChart m1.pipelineChart pipelinePlaceholder) ∨
        (¬ NoData data.pipeline.values ∧
          ConstructedChart m.pipelineChart m1.pipelineChart
            (pipelineConfig data.pipeline theme)))) ∧
    (m.documentsChart.canvas = true → m.documentsChart.container = true →
      ∃ m1, buildDocumentsChart m data theme = Except.ok m1 ∧
        ((NoData data.documents.completion_rates ∧
          TookPlaceholder m.documentsChart m1.documentsChart documentsPlaceholder) ∨
        (¬ NoData data.documents.completion_rates ∧
          ConstructedChart m.documentsChart m1.documentsChart
            (documentsConfig data.documents theme)))) ∧
    (m.statusChart.canvas = true → m.statusChart.container = true →
      ∃ m1, buildStatusChart m data theme = Except.ok m1 ∧
        ((NoData data.status.values ∧
          TookPlaceholder m.statusChart m1.statusChart statusPlaceholder) ∨
        (¬ NoData data.status.values ∧
          ConstructedChart m.statusChart m1.statusChart (statusConfig data.status theme)))) ∧
    (m.trendsChart.canvas = true → m.trendsChart.container = true →
      ∃ m1, buildTrendsChart m data theme = Except.ok m1 ∧
        ((NoData data.trends.applications ∧
          TookPlaceholder m.trendsChart m1.trendsChart trendsPlaceholder) ∨
        (¬ NoData data.trends.applications ∧
          ConstructedChart m.trendsChart m1.trendsChart (trendsConfig data.trends theme)))) := by
  refine ⟨fun hc hk => ?_, fun hc hk => ?_, fun hc hk => ?_, fun hc hk => ?_⟩
  · rcases placeholder_or_chart m.pipelineChart data.pipeline.values pipelinePlaceholder
      (pipelineConfig data.pipeline theme) hk with ⟨hn, hv, after, hw, ht⟩ | ⟨hn, hv, hcc⟩
    · exact ⟨{ m with pipelineChart := after }, by simp [buildPipelineChart, hc, hv, hw],
        Or.inl ⟨hn, ht⟩⟩
    · exact ⟨{ m with pipelineChart := replaceChart m.pipelineChart (pipelineConfig data.pipeline theme) },
        by simp [buildPipelineChart, hc, hv], Or.inr ⟨hn, hcc⟩⟩
  · rcases placeholder_or_chart m.documentsChart data.documents.completion_rates
      documentsPlaceholder (documentsConfig data.documents theme) hk with
      ⟨hn, hv, after, hw, ht⟩ | ⟨hn, hv, hcc⟩
    · exact ⟨{ m with documentsChart := after }, by simp [buildDocumentsChart, hc, hv, hw],
        Or.inl ⟨hn, ht⟩⟩
    · exact ⟨{ m with documentsChart := replaceChart m.documentsChart (documentsConfig data.documents theme) },
        by simp [buildDocumentsChart, hc, hv], Or.inr ⟨hn, hcc⟩⟩
  · rcases placeholder_or_chart m.statusChart data.status.values statusPlaceholder
      (statusConfig data.status theme) hk with ⟨hn, hv, after, hw, ht⟩ | ⟨hn, hv, hcc⟩
    · exact ⟨{ m with statusChart := after }, by simp [buildStatusChart, hc, hv, hw],
        Or.inl ⟨hn, ht⟩⟩
    · exact ⟨{ m with statusChart := replaceChart m.statusChart (statusConfig data.status theme) },
        by simp [buildStatusChart, hc, hv], Or.inr ⟨hn, hcc⟩⟩
  · rcases placeholder_or_chart m.trendsChart data.trends.applications trendsPlaceholder
      (trendsConfig data.trends theme) hk with ⟨hn, hv, after, hw, ht⟩ | ⟨hn, hv, hcc⟩
    · exact ⟨{ m with trendsChart := after }, by simp [buildTrendsChart, hc, hv, hw],
        Or.inl ⟨hn, ht⟩⟩
    · exact ⟨{ m with trendsChart := replaceChart m.trendsChart (trendsConfig data.trends theme) },
        by simp [buildTrendsChart, hc, hv], Or.inr ⟨hn, hcc⟩⟩

/-- The placeholder path of the four builders on a page where the canvas is
present but has no `.chart-container` ancestor: the builder throws, and so
neither writes a placeholder nor returns. -/
theorem builders_without_container (m : AdminCharts) (data : DashboardData) (theme : String) :
    (m.pipelineChart.canvas = true → m.pipelineChart.container = false →
      NoData data.pipeline.values →
      buildPipelineChart m data theme = Except.error noContainerError) ∧
    (m.documentsChart.canvas = true → m.documentsChart.container = false →
      NoData data.documents.completion_rates →
      buildDocumentsChart m data theme = Except.error noContainerError) ∧
    (m.statusChart.canvas = true → m.statusChart.container = false →
      NoData data.status.values →
      buildStatusChart m data theme = Except.error noContainerError) ∧
    (m.trendsChart.canvas = true → m.trendsChart.container = false →
      NoData data.trends.applications →
      buildTrendsChart m data theme = Except.error noContainerError) := by
  refine ⟨fun hc hk hn => ?_, fun hc hk hn => ?_, fun hc hk hn => ?_, fun hc hk hn => ?_⟩
  · simp [buildPipelineChart, hc, (noValues_iff _).2 hn, writePlaceholder, hk]
  · simp [buildDocumentsChart, hc, (noValues_iff _).2 hn, writePlaceholder, hk]
  · simp [buildStatusChart, hc, (noValues_iff _).2 hn, writePlaceholder, hk]
  · simp [buildTrendsChart, hc, (noValues_iff _).2 hn, writePlaceholder, hk]

/-- C7, evaluated on the code: on a page where the four canvases are present
but not inside an element of class `chart-container`, with the all-zero series
`[0, 0, 0]`, each of `buildPipelineChart`, `buildDocumentsChart`,
`buildStatusChart` and `buildTrendsChart` throws a `TypeError` on its
placeholder path: no placeholder is written and the function does not return.
On the page where the canvases are inside such an element the same call writes
the placeholder. -/
theorem placeholder_path_throws_without_container :
    barePage.pipelineChart.canvas = true ∧ NoData zeroData.pipeline.values ∧
    buildPipelineChart barePage zeroData "light" = Except.error noContainerError ∧
    buildDocumentsChart barePage zeroData "light" = Except.error noContainerError ∧
    buildStatusChart barePage zeroData "light" = Except.error noContainerError ∧
    buildTrendsChart barePage zeroData "light" = Except.error noContainerError ∧
    (∃ m1, buildPipelineChart examplePage zeroData "light" = Except.ok m1 ∧
      m1.pipelineChart.trace = [Effect.setContainerHTML pipelinePlaceholder]) := by
  obtain ⟨h1, h2, h3, h4⟩ := builders_without_container barePage zeroData "light"
  refine ⟨rfl, noData_zeros, h1 rfl rfl noData_zeros, h2 rfl rfl noData_zeros,
    h3 rfl rfl noData_zeros, h4 rfl rfl noData_zeros, ?_⟩
  obtain ⟨m1, hm, hor⟩ := (builders_with_container examplePage zeroData "light").1 rfl rfl
  refine ⟨m1, hm, ?_⟩
  rcases hor with ⟨-, ht, -⟩ | ⟨hn, -⟩
  · exact ht
  · exact absurd noData_zeros hn

theorem noValues_of_nonzero (vs : List ℚ) (hnz : ∃ v ∈ vs, v ≠ 0) : noValues (some vs) = false := by
  cases h : noValues (some vs) with
  | false => rfl
  | true =>
    obtain ⟨v, hv, hne⟩ := hnz
    rcases (noValues_iff _).1 h with h1 | h1 | ⟨ws, hws, hall⟩
    · exact absurd h1 (by simp)
    · cases h1
      exact absurd hv (by simp)
    · cases hws
      exact absurd (hall v hv) hne

theorem generateLabels_pairs (R : Runtime) (suffix : String) (config : ChartConfig)
    (d : ChartDataset) (ds : List ChartDataset) (values : List ℚ)
    (hds : config.datasets = d :: ds) (hd : d.data = values) :
    (generateLabels R suffix config).length = config.labels.length ∧
    ∀ (i : Nat) (hl : i < config.labels.length) (hv : i < values.length),
      ∃ item, (generateLabels R suffix config)[i]? = some item ∧ item.index = i ∧
        item.text = config.labels[i] ++ " (" ++ R.numberToString values[i] ++ suffix := by
  unfold generateLabels
  by_cases h0 : config.labels.length = 0
  · refine ⟨by simp [h0], fun i hl _ => ?_⟩
    omega
  · have hg : (config.labels.length != 0 && config.datasets.length != 0) = true := by
      simp [h0, hds]
    rw [if_pos hg]
    refine ⟨List.length_mapIdx, fun i hl hv => ?_⟩
    rw [List.getElem?_mapIdx, List.getElem?_eq_getElem hl]
    refine ⟨_, rfl, rfl, ?_⟩
    simp [hds, hd, valueText, List.getElem?_eq_getElem hv]

/-- C8: for every series with at least one non-zero value, on a page where the
canvas is present, `buildPipelineChart`, `buildDocumentsChart` and
`buildStatusChart` (and the `staticfiles` copy of `buildPipelineChart`) return,
and the chart they built has the input labels as its labels and the input
values as the data of its single dataset, in the same order; the legend
generated for the pipeline and documents charts has one entry per label, and
entry `i` is numbered `i` and reads label `i` followed by value `i`. -/
theorem chart_config_keeps_label_value_pairs (R : Runtime) (m : AdminCharts)
    (data : DashboardData) (theme : String) (vs : List ℚ) (hnz : ∃ v ∈ vs, v ≠ 0) :
    (m.pipelineChart.canvas = true → data.pipeline.values = some vs →
      ∃ m1 config, buildPipelineChart m data theme = Except.ok m1 ∧
        m1.pipelineChart.chart = some config ∧
        KeepsPairs config data.pipeline.labels vs ∧
        LegendPairs R config data.pipeline.labels vs " applicants)") ∧
    (m.documentsChart.canvas = true → data.documents.completion_rates = some vs →
      ∃ m1 config, buildDocumentsChart m data theme = Except.ok m1 ∧
        m1.documentsChart.chart = some config ∧
        KeepsPairs config data.documents.labels vs ∧
        LegendPairs R config data.documents.labels vs "%)") ∧
    (m.statusChart.canvas = true → data.status.values = some vs →
      ∃ m1 config, buildStatusChart m data theme = Except.ok m1 ∧
        m1.statusChart.chart = some config ∧
        KeepsPairs config data.status.labels vs) ∧
    (m.pipelineChart.canvas = true → data.pipeline.values = some vs →
      ∃ m1 config, StaticfilesAdminCharts.buildPipelineChart m data theme = Except.ok m1 ∧
        m1.pipelineChart.chart = some config ∧
        KeepsPairs config data.pipeline.labels vs) := by
  refine ⟨fun hc hv => ?_, fun hc hv => ?_, fun hc hv => ?_, fun hc hv => ?_⟩
  · refine ⟨{ m with
        pipelineChart := replaceChart m.pipelineChart (pipelineConfig data.pipeline theme) },
      pipelineConfig data.pipeline theme, ?_, rfl, ⟨rfl, ?_⟩, ?_⟩
    · unfold buildPipelineChart
      simp [hc, hv, noValues_of_nonzero vs hnz]
    · simp [pipelineConfig, hv]
    · obtain ⟨hlen, hitems⟩ := generateLabels_pairs R " applicants)"
        (pipelineConfig data.pipeline theme) _ [] vs rfl (by simp [hv])
      exact ⟨_, rfl, hlen, hitems⟩
  · refine ⟨{ m with
        documentsChart := replaceChart m.documentsChart (documentsConfig data.documents theme) },
      documentsConfig data.documents theme, ?_, rfl, ⟨rfl, ?_⟩, ?_⟩
    · unfold buildDocumentsChart
      simp [hc, hv, noValues_of_nonzero vs hnz]
    · simp [documentsConfig, hv]
    · obtain ⟨hlen, hitems⟩ := generateLabels_pairs R "%)"
        (documentsConfig data.documents theme) _ [] vs rfl (by simp [hv])
      exact ⟨_, rfl, hlen, hitems⟩
  · refine ⟨{ m with
        statusChart := replaceChart m.statusChart (statusConfig data.status theme) },
      statusConfig data.status theme, ?_, rfl, rfl, ?_⟩
    · unfold buildStatusChart
      simp [hc, hv, noValues_of_nonzero vs hnz]
    · simp [statusConfig, hv]
  · refine ⟨{ m with
        pipelineChart :=
          replaceChart m.pipelineChart (StaticfilesAdminCharts.pipelineConfig data.pipeline theme) },
      StaticfilesAdminCharts.pipelineConfig data.pipeline theme, ?_, rfl, rfl, ?_⟩
    · unfold StaticfilesAdminCharts.buildPipelineChart
      simp [hc, hv, noValues_of_nonzero vs hnz]
    · simp [StaticfilesAdminCharts.pipelineConfig, hv]

/-- Witness for C8: values `[10, 20, 30]` with labels `[a, b, c]`. -/
theorem chart_config_keeps_label_value_pairs_witness :
    (∃ m1 config, buildPipelineChart examplePage exampleData "light" = Except.ok m1 ∧
      m1.pipelineChart.chart = some config ∧
      KeepsPairs config ["a", "b", "c"] [10, 20, 30] ∧
      LegendPairs exampleRuntime config ["a", "b", "c"] [10, 20, 30] " applicants)") ∧
    (∃ m1 config, buildDocumentsChart examplePage exampleData "light" = Except.ok m1 ∧
      m1.documentsChart.chart = some config ∧
      KeepsPairs config ["a", "b", "c"] [10, 20, 30] ∧
      LegendPairs exampleRuntime config ["a", "b", "c"] [10, 20, 30] "%)") ∧
    (∃ m1 config, buildStatusChart examplePage exampleData "light" = Except.ok m1 ∧
      m1.statusChart.chart = some config ∧
      KeepsPairs config ["a", "b", "c"] [10, 20, 30]) :=
  ⟨(chart_config_keeps_label_value_pairs exampleRuntime examplePage exampleData "light"
      [10, 20, 30] ⟨10, by simp, by norm_num⟩).1 rfl rfl,
   (chart_config_keeps_label_value_pairs exampleRuntime examplePage exampleData "light"
      [10, 20, 30] ⟨10, by simp, by norm_num⟩).2.1 rfl rfl,
   (chart_config_keeps_label_value_pairs exampleRuntime examplePage exampleData "light"
      [10, 20, 30] ⟨10, by simp, by norm_num⟩).2.2.1 rfl rfl⟩

end AdminCharts

namespace AdminDashboard

theorem tryNewChart_outcome (slot : ChartSlot) (config : ChartConfig) (throws : Bool)
    (line : String) (hc : slot.canvas = true) :
    (throws = true ∧
      ReplacedByPlaceholder slot (tryNewChart (destroyExisting slot) config throws line).1) ∨
    (throws = false ∧
      AdminCharts.ConstructedChart slot
        (tryNewChart (destroyExisting slot) config throws line).1 config) := by
  cases throws with
  | true =>
    left
    refine ⟨rfl, ?_⟩
    unfold tryNewChart destroyExisting showNoDataMessage ReplacedByPlaceholder
    cases hch : slot.chart with
    | none => simp [hc, hch]
    | some c => simp [hc, hch]
  | false =>
    right
    refine ⟨rfl, ?_⟩
    unfold tryNewChart destroyExisting AdminCharts.ConstructedChart
    cases hch : slot.chart with
    | none => simp [hc, hch]
    | some c => simp [hc, hch]

/-- C24: in `initializeCharts()`, for each of the four charts whose canvas is
present and whatever happens to the other three: if constructing the chart
throws, the exception is caught and the chart's container is replaced by the
'No data available' placeholder; if it does not throw, the chart is
constructed.  `initializeCharts()` itself returns in every case. -/
theorem chart_failure_is_caught_locally (throws : ChartFailures) (lightMode : Bool)
    (d : AdminDashboard) (data : DashboardData) (hd : d.dashboardData = some data) :
    (d.charts.pipelineChart.canvas = true →
      (throws.pipeline = true ∧
        ReplacedByPlaceholder d.charts.pipelineChart
          (initializeCharts throws lightMode d).charts.pipelineChart) ∨
      (throws.pipeline = false ∧
        AdminCharts.ConstructedChart d.charts.pipelineChart
          (initializeCharts throws lightMode d).charts.pipelineChart
          (AdminCharts.pipelineConfig data.pipeline (if lightMode then "light" else "dark")))) ∧
    (d.charts.documentsChart.canvas = true →
      (throws.documents = true ∧
        ReplacedByPlaceholder d.charts.documentsChart
          (initializeCharts throws lightMode d).charts.documentsChart) ∨
      (throws.documents = false ∧
        AdminCharts.ConstructedChart d.charts.documentsChart
          (initializeCharts throws lightMode d).charts.documentsChart
          (AdminCharts.documentsConfig data.documents (if lightMode then "light" else "dark")))) ∧
    (d.charts.statusChart.canvas = true →
      (throws.status = true ∧
        ReplacedByPlaceholder d.charts.statusChart
          (initializeCharts throws lightMode d).charts.statusChart) ∨
      (throws.status = false ∧
        AdminCharts.ConstructedChart d.charts.statusChart
          (initializeCharts throws lightMode d).charts.statusChart
          (AdminCharts.statusConfig data.status (if lightMode then "light" else "dark")))) ∧
    (d.charts.trendsChart.canvas = true →
      (throws.trends = true ∧
        ReplacedByPlaceholder d.charts.trendsChart
          (initializeCharts throws lightMode d).charts.trendsChart) ∨
      (throws.trends = false ∧
        AdminCharts.ConstructedChart d.charts.trendsChart
          (initializeCharts throws lightMode d).charts.trendsChart
          (AdminCharts.trendsConfig data.trends (if lightMode then "light" else "dark")))) := by
  have he : (initializeCharts throws lightMode d).charts =
      { pipelineChart := (tryNewChart (destroyExisting d.charts.pipelineChart)
          (AdminCharts.pipelineConfig data.pipeline (if lightMode then "light" else "dark"))
          throws.pipeline "Error creating pipeline chart:").1
        documentsChart := (tryNewChart (destroyExisting d.charts.documentsChart)
          (AdminCharts.documentsConfig data.documents (if lightMode then "light" else "dark"))
          throws.documents "Error creating documents chart:").1
        statusChart := (tryNewChart (destroyExisting d.charts.statusChart)
          (AdminCharts.statusConfig data.status (if lightMode then "light" else "dark"))
          throws.status "Error creating status chart:").1
        trendsChart := (tryNewChart (destroyExisting d.charts.trendsChart)
          (AdminCharts.trendsConfig data.trends (if lightMode then "light" else "dark"))
          throws.trends "Error creating trends chart:").1 } := by
    unfold initializeCharts
    rw [hd]
  rw [he]
  exact ⟨fun hc => tryNewChart_outcome _ _ _ _ hc, fun hc => tryNewChart_outcome _ _ _ _ hc,
    fun hc => tryNewChart_outcome _ _ _ _ hc, fun hc => tryNewChart_outcome _ _ _ _ hc⟩

/-- Witness for C24: constructing the pipeline chart throws, the other three
constructions succeed. -/
theorem chart_failure_is_caught_locally_witness :
    ReplacedByPlaceholder AdminCharts.examplePage.pipelineChart
      (initializeCharts { pipeline := true, documents := false, status := false, trends := false }
        false (exampleDashboard AdminCharts.exampleData)).charts.pipelineChart ∧
    AdminCharts.ConstructedChart AdminCharts.examplePage.documentsChart
      (initializeCharts { pipeline := true, documents := false, status := false, trends := false }
        false (exampleDashboard AdminCharts.exampleData)).charts.documentsChart
      (AdminCharts.documentsConfig AdminCharts.exampleData.documents "dark") ∧
    AdminCharts.ConstructedChart AdminCharts.examplePage.trendsChart
      (initializeCharts { pipeline := true, documents := false, status := false, trends := false }
        false (exampleDashboard AdminCharts.exampleData)).charts.trendsChart
      (AdminCharts.trendsConfig AdminCharts.exampleData.trends "dark") :=
  ⟨((chart_failure_is_caught_locally
      { pipeline := true, documents := false, status := false, trends := false } false
      (exampleDashboard AdminCharts.exampleData) AdminCharts.exampleData rfl).1 rfl).elim
      (fun h => h.2) (fun h => absurd h.1 (by decide)),
   ((chart_failure_is_caught_locally
      { pipeline := true, documents := false, status := false, trends := false } false
      (exampleDashboard AdminCharts.exampleData) AdminCharts.exampleData rfl).2.1 rfl).elim
      (fun h => absurd h.1 (by decide)) (fun h => h.2),
   ((chart_failure_is_caught_locally
      { pipeline := true, documents := false, status := false, trends := false } false
      (exampleDashboard AdminCharts.exampleData) AdminCharts.exampleData rfl).2.2.2 rfl).elim
      (fun h => absurd h.1 (by decide)) (fun h => h.2)⟩

/-- C25, evaluated on the code: with the all-zero series `[0, 0, 0]` and no
failing constructor, `initializeCharts()` constructs the pipeline chart from
that series and writes no placeholder, where `buildPipelineChart` of
`admin_charts.js` on the same page and data writes its placeholder and
constructs no chart. -/
theorem initializeCharts_draws_all_zero_series :
    AdminCharts.zeroData.pipeline.values = some [0, 0, 0] ∧
    (initializeCharts { pipeline := false, documents := false, status := false, trends := false }
      false (exampleDashboard AdminCharts.zeroData)).charts.pipelineChart.trace =
      [Effect.newChart (AdminCharts.pipelineConfig AdminCharts.zeroData.pipeline "dark")] ∧
    (initializeCharts { pipeline := false, documents := false, status := false, trends := false }
      false (exampleDashboard AdminCharts.zeroData)).charts.pipelineChart.chart =
      some (AdminCharts.pipelineConfig AdminCharts.zeroData.pipeline "dark") ∧
    (initializeCharts { pipeline := false, documents := false, status := false, trends := false }
      false (exampleDashboard AdminCharts.zeroData)).console = [] ∧
    (∃ m1, AdminCharts.buildPipelineChart AdminCharts.examplePage AdminCharts.zeroData
        "dark" = Except.ok m1 ∧
      m1.pipelineChart.trace = [Effect.setContainerHTML AdminCharts.pipelinePlaceholder] ∧
      m1.pipelineChart.chart = none) := by
  refine ⟨rfl, rfl, rfl, rfl, ?_⟩
  have h : AdminCharts.noValues AdminCharts.zeroData.pipeline.values = true :=
    (AdminCharts.noValues_iff _).2 AdminCharts.noData_zeros
  refine ⟨{ AdminCharts.examplePage with
      pipelineChart :=
        { canvas := false
          container := true
          chart := none
          trace := [Effect.setContainerHTML AdminCharts.pipelinePlaceholder] } }, ?_, rfl, rfl⟩
  simp [AdminCharts.buildPipelineChart, AdminCharts.examplePage, h,
    AdminCharts.writePlaceholder]

end AdminDashboard

/-! ## Properties of the theme manager -/

namespace DarkModeManager

theorem toggleTheme_currentTheme (s : DarkModeManager) :
    (toggleTheme s).currentTheme = if s.currentTheme = "light" then "dark" else "light" := by
  by_cases h : s.currentTheme = "light" <;> simp [toggleTheme, showThemeChangeToast, applyTheme, saveTheme, h]

theorem toggleTheme_storage (s : DarkModeManager) :
    (toggleTheme s).storage = some (toggleTheme s).currentTheme := by
  simp [toggleTheme, showThemeChangeToast, applyTheme, saveTheme]

/-- C9, as the code has it: from every state whose current theme is `light` or
`dark`, two consecutive `toggleTheme()` calls return `currentTheme` to its
original value and leave that theme persisted under `schooldriver-theme`; so
the persisted value is back at its original whenever it was the current theme
before the two calls. -/
theorem toggleTheme_twice (s : DarkModeManager)
    (h : s.currentTheme = "light" ∨ s.currentTheme = "dark") :
    (toggleTheme (toggleTheme s)).currentTheme = s.currentTheme ∧
    (toggleTheme (toggleTheme s)).storage = some s.currentTheme ∧
    (s.storage = some s.currentTheme → (toggleTheme (toggleTheme s)).storage = s.storage) := by
  have hc : (toggleTheme (toggleTheme s)).currentTheme = s.currentTheme := by
    rw [toggleTheme_currentTheme, toggleTheme_currentTheme]
    rcases h with h | h <;> simp [h]
  have hs : (toggleTheme (toggleTheme s)).storage = some s.currentTheme := by
    rw [toggleTheme_storage, hc]
  exact ⟨hc, hs, fun h0 => hs.trans h0.symm⟩

/-- Witness for C9 as amended: a manager initialised from a persisted `dark`. -/
theorem toggleTheme_twice_witness :
    (toggleTheme (toggleTheme (init (some "dark") []))).currentTheme =
      (init (some "dark") []).currentTheme ∧
    (toggleTheme (toggleTheme (init (some "dark") []))).storage =
      some (init (some "dark") []).currentTheme ∧
    ((init (some "dark") []).storage = some (init (some "dark") []).currentTheme →
      (toggleTheme (toggleTheme (init (some "dark") []))).storage =
        (init (some "dark") []).storage) :=
  toggleTheme_twice (init (some "dark") []) (Or.inr (by decide))

/-- Counterexample to C9 as stated: a manager initialised with nothing
persisted has theme `light` and no persisted value; after two
`toggleTheme()` calls the theme is `light` again but `light` is now persisted. -/
theorem toggleTheme_twice_persists_light :
    (init none []).currentTheme = "light" ∧ (init none []).storage = none ∧
    (toggleTheme (toggleTheme (init none []))).currentTheme = "light" ∧
    (toggleTheme (toggleTheme (init none []))).storage = some "light" ∧
    ¬ ((toggleTheme (toggleTheme (init none []))).currentTheme = (init none []).currentTheme ∧
       (toggleTheme (toggleTheme (init none []))).storage = (init none []).storage) := by
  decide

theorem init_currentTheme (storage : Option String) (bodyClasses : List String) :
    (init storage bodyClasses).currentTheme = savedOrLight storage := rfl

/-- C18, as the code has it: after `init()`, `currentTheme` is the persisted
`schooldriver-theme` value when there is one (and it is not the empty
string), and `light` otherwise, whatever the system colour-scheme preference. -/
theorem initial_theme (prefersDark : Bool) (storage : Option String)
    (bodyClasses : List String) :
    (∀ t, storage = some t → t ≠ "" →
      (initOnSystem prefersDark storage bodyClasses).currentTheme = t) ∧
    (storage = none → (initOnSystem prefersDark storage bodyClasses).currentTheme = "light") ∧
    (storage = some "" → (initOnSystem prefersDark storage bodyClasses).currentTheme = "light") := by
  refine ⟨fun t h hne => ?_, fun h => ?_, fun h => ?_⟩
  · show (init storage bodyClasses).currentTheme = t
    rw [init_currentTheme, h]
    simp [savedOrLight, hne]
  · show (init storage bodyClasses).currentTheme = "light"
    rw [init_currentTheme, h]
    rfl
  · show (init storage bodyClasses).currentTheme = "light"
    rw [init_currentTheme, h]
    rfl

/-- Witness for C18 as amended: a persisted `dark` on a system that prefers
light, and nothing persisted on a system that prefers dark. -/
theorem initial_theme_witness :
    (initOnSystem false (some "dark") []).currentTheme = "dark" ∧
    (initOnSystem true none []).currentTheme = "light" :=
  ⟨(initial_theme false (some "dark") []).1 "dark" rfl (by decide),
   (initial_theme true none []).2.1 rfl⟩

/-- Counterexample to C18 as stated: with nothing persisted on a system that
prefers dark, `init()` leaves `currentTheme` at `light`, not `dark`. -/
theorem initial_theme_ignores_system_preference :
    (initOnSystem true none []).storage = none ∧
    (initOnSystem true none []).currentTheme = "light" ∧
    (initOnSystem true none []).currentTheme ≠ "dark" := by
  decide

/-- C19: `setTheme(t)` with `t` equal to `light` or `dark` leaves
`getCurrentTheme()` and the persisted value at `t`; with any other `t` it
changes nothing, so neither `currentTheme` nor the persisted value changes;
hence a current theme within `light`, `dark` stays within them. -/
theorem setTheme_accepts_only_light_and_dark (s : DarkModeManager) (t : String) :
    (t = "light" ∨ t = "dark" →
      getCurrentTheme (setTheme s t) = t ∧ (setTheme s t).storage = some t) ∧
    (t ≠ "light" → t ≠ "dark" →
      setTheme s t = s ∧ (setTheme s t).currentTheme = s.currentTheme ∧
      (setTheme s t).storage = s.storage) ∧
    (s.currentTheme = "light" ∨ s.currentTheme = "dark" →
      (setTheme s t).currentTheme = "light" ∨ (setTheme s t).currentTheme = "dark") := by
  have hyes : t = "light" ∨ t = "dark" →
      getCurrentTheme (setTheme s t) = t ∧ (setTheme s t).storage = some t := by
    intro h
    rcases h with h | h <;> subst h <;> exact ⟨rfl, rfl⟩
  have hno : t ≠ "light" → t ≠ "dark" → setTheme s t = s := by
    intro h1 h2
    simp [setTheme, h1, h2]
  refine ⟨hyes, fun h1 h2 => ?_, fun hs => ?_⟩
  · rw [hno h1 h2]
    exact ⟨rfl, rfl, rfl⟩
  · by_cases h : t = "light" ∨ t = "dark"
    · have := (hyes h).1
      unfold getCurrentTheme at this
      rw [this]
      exact h
    · rw [hno (fun h1 => h (Or.inl h1)) (fun h2 => h (Or.inr h2))]
      exact hs

/-- Witness for C19: `setTheme('dark')` and `setTheme('blue')` on a manager
initialised with nothing persisted. -/
theorem setTheme_accepts_only_light_and_dark_witness :
    (getCurrentTheme (setTheme (init none []) "dark") = "dark" ∧
      (setTheme (init none []) "dark").storage = some "dark") ∧
    (setTheme (init none []) "blue" = init none [] ∧
      (setTheme (init none []) "blue").currentTheme = (init none []).currentTheme ∧
      (setTheme (init none []) "blue").storage = (init none []).storage) :=
  ⟨(setTheme_accepts_only_light_and_dark (init none []) "dark").1 (Or.inr rfl),
   (setTheme_accepts_only_light_and_dark (init none []) "blue").2.1 (by decide) (by decide)⟩


/-- With a working storage the fault-aware methods are the plain ones. -/
theorem no_faults_agree (s : DarkModeManager) (theme : String) (storage : Option String)
    (bodyClasses : List String) :
    constructOn { readsFail := false, writesFail := false } storage bodyClasses =
      Except.ok (init storage bodyClasses) ∧
    toggleThemeOn { readsFail := false, writesFail := false } s = (toggleTheme s, none) ∧
    setThemeOn { readsFail := false, writesFail := false } s theme = (setTheme s theme, none) := by
  refine ⟨rfl, rfl, ?_⟩
  unfold setThemeOn setTheme
  split <;> rfl

/-- C26, as the code has it: nothing catches a failing storage.  If reads throw,
constructing the manager throws.  If reads work and nothing is stored,
construction yields `currentTheme == 'light'`.  If writes throw,
`toggleTheme()` and `setTheme()` (for `light` or `dark`) still assign the
in-memory `currentTheme`, then throw before the theme reaches the page. -/
theorem storage_failures_propagate (faults : StorageFaults) (storage : Option String)
    (bodyClasses : List String) (s : DarkModeManager) (t : String) :
    (faults.readsFail = true →
      constructOn faults storage bodyClasses = Except.error storageError) ∧
    (faults.readsFail = false → storage = none →
      ∃ m, constructOn faults storage bodyClasses = Except.ok m ∧ m.currentTheme = "light") ∧
    (faults.writesFail = true →
      (toggleThemeOn faults s).1.currentTheme =
        (if s.currentTheme = "light" then "dark" else "light") ∧
      (toggleThemeOn faults s).2 = some storageError ∧
      (toggleThemeOn faults s).1.dataTheme = s.dataTheme ∧
      (toggleThemeOn faults s).1.storage = s.storage) ∧
    (faults.writesFail = true → t = "light" ∨ t = "dark" →
      (setThemeOn faults s t).1.currentTheme = t ∧
      (setThemeOn faults s t).2 = some storageError ∧
      (setThemeOn faults s t).1.dataTheme = s.dataTheme ∧
      (setThemeOn faults s t).1.storage = s.storage) := by
  refine ⟨fun h => ?_, fun h hs => ?_, fun h => ?_, fun h ht => ?_⟩
  · simp [constructOn, h]
  · refine ⟨init storage bodyClasses, by simp [constructOn, h], ?_⟩
    rw [init_currentTheme, hs]
    rfl
  · unfold toggleThemeOn
    by_cases hl : s.currentTheme = "light" <;> simp [h, hl]
  · unfold setThemeOn
    rcases ht with ht | ht <;> subst ht <;> simp [h]

/-- Witness for C26 as amended: reads and writes both fail at construction;
writes fail on a manager constructed earlier with nothing stored. -/
theorem storage_failures_propagate_witness :
    constructOn { readsFail := true, writesFail := true } none [] = Except.error storageError ∧
    (∃ m, constructOn { readsFail := false, writesFail := true } none [] = Except.ok m ∧
      m.currentTheme = "light") ∧
    ((toggleThemeOn { readsFail := false, writesFail := true } (init none [])).1.currentTheme =
        (if (init none []).currentTheme = "light" then "dark" else "light") ∧
      (toggleThemeOn { readsFail := false, writesFail := true } (init none [])).2 =
        some storageError ∧
      (toggleThemeOn { readsFail := false, writesFail := true } (init none [])).1.dataTheme =
        (init none []).dataTheme ∧
      (toggleThemeOn { readsFail := false, writesFail := true } (init none [])).1.storage =
        (init none []).storage) :=
  ⟨(storage_failures_propagate { readsFail := true, writesFail := true } none []
      (init none []) "dark").1 rfl,
   (storage_failures_propagate { readsFail := false, writesFail := true } none []
      (init none []) "dark").2.1 rfl rfl,
   (storage_failures_propagate { readsFail := false, writesFail := true } none []
      (init none []) "dark").2.2.1 rfl⟩

/-- Counterexample to C26 as stated: with reads and writes failing,
constructing the manager throws; and on a manager at hand, `toggleTheme()` and
`setTheme('dark')` throw. -/
theorem storage_failure_makes_construction_throw :
    constructOn { readsFail := true, writesFail := true } none [] = Except.error storageError ∧
    (toggleThemeOn { readsFail := true, writesFail := true } (init none [])).2 =
      some storageError ∧
    (setThemeOn { readsFail := true, writesFail := true } (init none []) "dark").2 =
      some storageError := by
  exact ⟨rfl, rfl, rfl⟩


end DarkModeManager

/-! ## Properties of the onboarding tour -/

namespace OnboardingManager

/-- `showStep` unfolds as the source is written: past the last step it ends the
tour, on a missing target it calls itself with the next index, otherwise it
highlights the target and shows the tooltip. -/
theorem showStep_eq (dom : String → Bool) (s : OnboardingManager) (stepIndex : Nat) :
    showStep dom s stepIndex =
      if h : stepIndex ≥ s.tourSteps.length then endTour s
      else if !dom (s.tourSteps[stepIndex]).target then showStep dom s (stepIndex + 1)
      else showTooltip (highlightElement s (s.tourSteps[stepIndex]).target) stepIndex := by
  unfold showStep
  by_cases h : stepIndex ≥ s.tourSteps.length
  · rw [dif_pos h, List.drop_eq_nil_of_le h]
    rfl
  · rw [dif_neg h, List.drop_eq_getElem_cons (by omega)]
    rfl

theorem completions_endTour (s : OnboardingManager) :
    completions (endTour s) = completions s + 1 := by
  unfold endTour completions showMessage
  dsimp only
  split <;> simp

theorem showStepFrom_frame (dom : String → Bool) (s : OnboardingManager) (steps : List TourStep)
    (stepIndex : Nat) :
    (showStepFrom dom s steps stepIndex).tourSteps = s.tourSteps ∧
    (showStepFrom dom s steps stepIndex).currentStep = s.currentStep ∧
    completions (showStepFrom dom s steps stepIndex) =
      completions s + (if allMissing dom steps then 1 else 0) := by
  induction steps generalizing stepIndex with
  | nil =>
    refine ⟨?_, ?_, ?_⟩
    · unfold showStepFrom endTour showMessage
      dsimp only
      split <;> rfl
    · unfold showStepFrom endTour showMessage
      dsimp only
      split <;> rfl
    · simpa [showStepFrom, allMissing] using completions_endTour s
  | cons step rest ih =>
    unfold showStepFrom
    by_cases hd : dom step.target = true
    · simp [hd, allMissing, showTooltip, highlightElement, completions]
    · have hd0 : dom step.target = false := by simpa using hd
      obtain ⟨h1, h2, h3⟩ := ih (stepIndex + 1)
      simp only [hd0, Bool.not_false, if_true]
      refine ⟨h1, h2, ?_⟩
      rw [h3]
      simp [allMissing, hd0]

theorem trailingMissing_of_allMissing (dom : String → Bool) (steps : List TourStep)
    (h : allMissing dom steps = true) : trailingMissing dom steps = steps.length := by
  cases steps with
  | nil => rfl
  | cons step rest => simp [trailingMissing, h]

/-- The tour ends once for every step index `j` with `stepIndex < j ≤ N` from
which on all targets are missing; over the `N - stepIndex` remaining
`nextStep()` calls that is once, plus once per trailing missing step. -/
theorem completions_nextSteps (dom : String → Bool) (rest : List TourStep) (s : OnboardingManager)
    (h : s.tourSteps.drop (s.currentStep + 1) = rest) :
    completions (nextSteps dom s (rest.length + 1)) =
      completions s + 1 + trailingMissing dom rest := by
  induction rest generalizing s with
  | nil =>
    obtain ⟨-, -, h3⟩ := showStepFrom_frame dom { s with currentStep := s.currentStep + 1 }
      (s.tourSteps.drop (s.currentStep + 1)) (s.currentStep + 1)
    simp only [List.length_nil, Nat.zero_add, nextSteps, nextStep, showStep, trailingMissing,
      Nat.add_zero]
    rw [h3]
    simp [h, allMissing, completions]
  | cons step rest ih =>
    obtain ⟨h1, h2, h3⟩ := showStepFrom_frame dom { s with currentStep := s.currentStep + 1 }
      (s.tourSteps.drop (s.currentStep + 1)) (s.currentStep + 1)
    have hdrop : (nextStep dom s).tourSteps.drop ((nextStep dom s).currentStep + 1) = rest := by
      unfold nextStep showStep
      dsimp only
      rw [h1, h2]
      show List.drop (s.currentStep + 1 + 1) s.tourSteps = rest
      rw [← List.drop_drop, h]
      rfl
    have hstep : completions (nextStep dom s) =
        completions s + (if allMissing dom (step :: rest) then 1 else 0) := by
      unfold nextStep showStep
      dsimp only
      rw [h3]
      simp [h, completions]
    rw [List.length_cons, nextSteps, ih (nextStep dom s) hdrop, hstep]
    by_cases ha : allMissing dom (step :: rest) = true
    · have har : allMissing dom rest = true := by
        simp only [allMissing, List.all_cons, Bool.and_eq_true] at ha
        exact ha.2
      rw [trailingMissing, if_pos ha, if_pos ha, trailingMissing_of_allMissing dom rest har,
        List.length_cons]
      omega
    · rw [trailingMissing, if_neg ha, if_neg ha]

/-- On every tour of `N ≥ 1` steps, `startTour()` followed by `N` calls of
`nextStep()` runs tour completion once, plus once more for every step at the
end of the tour whose target is missing. -/
theorem completions_startTour_nextSteps (dom : String → Bool) (s : OnboardingManager)
    (steps : List TourStep) (hne : steps ≠ []) :
    completions (nextSteps dom (startTourWith dom s steps) steps.length) =
      completions s + 1 + trailingMissing dom steps := by
  cases steps with
  | nil => exact absurd rfl hne
  | cons step rest =>
    obtain ⟨h1, h2, h3⟩ := showStepFrom_frame dom
      (createOverlay { s with tourSteps := step :: rest, currentStep := 0, isActive := true })
      (step :: rest) 0
    have hstart : startTourWith dom s (step :: rest) =
        showStepFrom dom
          (createOverlay { s with tourSteps := step :: rest, currentStep := 0, isActive := true })
          (step :: rest) 0 := by
      simp [startTourWith, showStep, createOverlay]
    have hc : completions (startTourWith dom s (step :: rest)) =
        completions s + (if allMissing dom (step :: rest) then 1 else 0) := by
      rw [hstart, h3]
      simp [completions, createOverlay]
    have hdrop : (startTourWith dom s (step :: rest)).tourSteps.drop
        ((startTourWith dom s (step :: rest)).currentStep + 1) = rest := by
      rw [hstart, h1, h2]
      simp [createOverlay]
    rw [List.length_cons, completions_nextSteps dom rest _ hdrop, hc]
    by_cases ha : allMissing dom (step :: rest) = true
    · have har : allMissing dom rest = true := by
        simp only [allMissing, List.all_cons, Bool.and_eq_true] at ha
        exact ha.2
      rw [trailingMissing, if_pos ha, if_pos ha, trailingMissing_of_allMissing dom rest har,
        List.length_cons]
      omega
    · rw [trailingMissing, if_neg ha, if_neg ha]

/-- C10, evaluated on the code: on the dashboard page (a 4-step tour) whose last
target `[data-tour="today-schedule"]` is missing, `startTour()` followed by
four `nextStep()` calls runs tour completion twice, at the third and at the
fourth call. -/
theorem tour_completion_runs_twice :
    completions (startTour (domWithout ["[data-tour=\"today-schedule\"]"]) (fresh none)
      "/student/dashboard/") = 0 ∧
    completions (nextSteps (domWithout ["[data-tour=\"today-schedule\"]"])
      (startTour (domWithout ["[data-tour=\"today-schedule\"]"]) (fresh none)
        "/student/dashboard/") 2) = 0 ∧
    completions (nextSteps (domWithout ["[data-tour=\"today-schedule\"]"])
      (startTour (domWithout ["[data-tour=\"today-schedule\"]"]) (fresh none)
        "/student/dashboard/") 3) = 1 ∧
    completions (nextSteps (domWithout ["[data-tour=\"today-schedule\"]"])
      (startTour (domWithout ["[data-tour=\"today-schedule\"]"]) (fresh none)
        "/student/dashboard/") 4) = 2 := by
  decide

theorem showStepFrom_isActive (dom : String → Bool) (s : OnboardingManager)
    (steps : List TourStep) (stepIndex : Nat) :
    (showStepFrom dom s steps stepIndex).isActive =
      if allMissing dom steps then false else s.isActive := by
  induction steps generalizing stepIndex with
  | nil =>
    unfold showStepFrom endTour showMessage
    dsimp only
    split <;> rfl
  | cons step rest ih =>
    unfold showStepFrom
    by_cases hd : dom step.target = true
    · simp [hd, allMissing, showTooltip, highlightElement]
    · have hd0 : dom step.target = false := by simpa using hd
      simp only [hd0, Bool.not_false, if_true]
      rw [ih]
      simp [allMissing, hd0]

/-- C20: from every prior state, `startTour()` on a page with a non-empty step
list leaves `currentStep` at 0 with the page's steps installed; the tour is
active afterwards unless every target is missing; and when the target of
step 0 is present the tour is active and step 0 is the step shown (its
target highlighted, its tooltip up). -/
theorem startTour_shows_first_step (dom : String → Bool) (s : OnboardingManager)
    (steps : List TourStep) (hne : steps ≠ []) :
    (startTourWith dom s steps).currentStep = 0 ∧
    (startTourWith dom s steps).tourSteps = steps ∧
    (startTourWith dom s steps).isActive = !allMissing dom steps ∧
    (∀ step rest, steps = step :: rest → dom step.target = true →
      (startTourWith dom s steps).isActive = true ∧
      (startTourWith dom s steps).tooltip = some 0 ∧
      (startTourWith dom s steps).highlighted = some step.target) := by
  cases steps with
  | nil => exact absurd rfl hne
  | cons step0 rest0 =>
    have hstart : startTourWith dom s (step0 :: rest0) =
        showStepFrom dom
          (createOverlay { s with tourSteps := step0 :: rest0, currentStep := 0, isActive := true })
          (step0 :: rest0) 0 := by
      simp [startTourWith, showStep, createOverlay]
    obtain ⟨h1, h2, -⟩ := showStepFrom_frame dom
      (createOverlay { s with tourSteps := step0 :: rest0, currentStep := 0, isActive := true })
      (step0 :: rest0) 0
    have h3 := showStepFrom_isActive dom
      (createOverlay { s with tourSteps := step0 :: rest0, currentStep := 0, isActive := true })
      (step0 :: rest0) 0
    rw [hstart]
    refine ⟨h2, h1, ?_, ?_⟩
    · rw [h3]
      cases allMissing dom (step0 :: rest0) <;> rfl
    · intro step rest hsteps hdom
      cases hsteps
      simp [showStepFrom, hdom, showTooltip, highlightElement, createOverlay]

/-- Witness for C20: the dashboard tour on a page where every target exists. -/
theorem startTour_shows_first_step_witness :
    (startTour (domWithout []) (fresh none) "/student/dashboard/").currentStep = 0 ∧
    (startTour (domWithout []) (fresh none) "/student/dashboard/").tourSteps =
      getTourStepsForPage "/student/dashboard/" ∧
    ((startTour (domWithout []) (fresh none) "/student/dashboard/").isActive = true ∧
      (startTour (domWithout []) (fresh none) "/student/dashboard/").tooltip = some 0 ∧
      (startTour (domWithout []) (fresh none) "/student/dashboard/").highlighted =
        some ".sidebar .nav-link[href*=\"dashboard\"]") :=
  ⟨(startTour_shows_first_step (domWithout []) (fresh none)
      (getTourStepsForPage "/student/dashboard/") (by decide)).1,
   (startTour_shows_first_step (domWithout []) (fresh none)
      (getTourStepsForPage "/student/dashboard/") (by decide)).2.1,
   (startTour_shows_first_step (domWithout []) (fresh none)
      (getTourStepsForPage "/student/dashboard/") (by decide)).2.2.2 _ _ rfl (by decide)⟩


theorem showStep_frame (dom : String → Bool) (s : OnboardingManager) (stepIndex : Nat) :
    (showStep dom s stepIndex).tourSteps = s.tourSteps ∧
    (showStep dom s stepIndex).currentStep = s.currentStep := by
  obtain ⟨h1, h2, -⟩ := showStepFrom_frame dom s (s.tourSteps.drop stepIndex) stepIndex
  exact ⟨h1, h2⟩

/-- `nextStep()` adds one to `currentStep` in every state: there is no upper
clamp. -/
theorem nextStep_currentStep (dom : String → Bool) (s : OnboardingManager) :
    (nextStep dom s).currentStep = s.currentStep + 1 ∧
    (nextStep dom s).tourSteps = s.tourSteps := by
  obtain ⟨h1, h2⟩ := showStep_frame dom { s with currentStep := s.currentStep + 1 }
    (s.currentStep + 1)
  exact ⟨h2, h1⟩

/-- `previousStep()` takes one from `currentStep`, except at 0 where it leaves
the state as it is. -/
theorem previousStep_currentStep (dom : String → Bool) (s : OnboardingManager) :
    (previousStep dom s).currentStep = s.currentStep - 1 ∧
    (previousStep dom s).tourSteps = s.tourSteps ∧
    (s.currentStep = 0 → previousStep dom s = s) := by
  unfold previousStep
  by_cases h : s.currentStep > 0
  · rw [if_pos h]
    obtain ⟨h1, h2⟩ := showStep_frame dom { s with currentStep := s.currentStep - 1 }
      (s.currentStep - 1)
    exact ⟨h2, h1, fun h0 => absurd h0 (by omega)⟩
  · rw [if_neg h]
    exact ⟨by omega, rfl, fun _ => rfl⟩

/-- C21, evaluated on the code: on the dashboard page (a tour of `N = 4` steps)
with every target present, `startTour()` and four `nextStep()` calls bring
`currentStep` to 4 and end the tour; a fifth `nextStep()` moves `currentStep`
on to 5, past `N`, and runs tour completion again. -/
theorem nextStep_passes_the_last_index :
    (startTour (domWithout []) (fresh none) "/student/dashboard/").tourSteps.length = 4 ∧
    (nextSteps (domWithout []) (startTour (domWithout []) (fresh none) "/student/dashboard/")
      4).currentStep = 4 ∧
    (nextSteps (domWithout []) (startTour (domWithout []) (fresh none) "/student/dashboard/")
      4).isActive = false ∧
    (nextSteps (domWithout []) (startTour (domWithout []) (fresh none) "/student/dashboard/")
      5).currentStep = 5 ∧
    (nextSteps (domWithout []) (startTour (domWithout []) (fresh none) "/student/dashboard/")
      5).tourSteps.length = 4 ∧
    completions (nextSteps (domWithout [])
      (startTour (domWithout []) (fresh none) "/student/dashboard/") 5) = 2 := by
  decide

theorem showStepFrom_cases (dom : String → Bool) (s : OnboardingManager)
    (steps : List TourStep) (stepIndex : Nat) :
    (∃ (k : Nat) (step : TourStep), steps[k]? = some step ∧ dom step.target = true ∧
      (∀ (m : Nat) (step1 : TourStep), m < k → steps[m]? = some step1 →
        dom step1.target = false) ∧
      showStepFrom dom s steps stepIndex =
        showTooltip (highlightElement s step.target) (stepIndex + k)) ∨
    ((∀ (m : Nat) (step1 : TourStep), steps[m]? = some step1 → dom step1.target = false) ∧
      showStepFrom dom s steps stepIndex = endTour s) := by
  induction steps generalizing stepIndex with
  | nil =>
    right
    exact ⟨fun m step1 h => absurd h (by simp), rfl⟩
  | cons step rest ih =>
    by_cases hd : dom step.target = true
    · left
      refine ⟨0, step, by simp, hd, fun m _ hm => absurd hm (Nat.not_lt_zero m), ?_⟩
      simp [showStepFrom, hd]
    · have hd0 : dom step.target = false := by simpa using hd
      have hrec : showStepFrom dom s (step :: rest) stepIndex =
          showStepFrom dom s rest (stepIndex + 1) := by
        simp [showStepFrom, hd0]
      have hhead : ∀ (m : Nat) (step1 : TourStep),
          (∀ (m1 : Nat), m = m1 + 1 → rest[m1]? = some step1 → dom step1.target = false) →
          (step :: rest)[m]? = some step1 → dom step1.target = false := by
        intro m step1 htail hget
        cases m with
        | zero =>
          have : step = step1 := by simpa using hget
          rw [← this]
          exact hd0
        | succ m1 => exact htail m1 rfl (by simpa using hget)
      rcases ih (stepIndex + 1) with ⟨k, st, hk, hst, hbefore, hres⟩ | ⟨hall, hres⟩
      · left
        refine ⟨k + 1, st, by simpa using hk, hst, ?_, ?_⟩
        · intro m step1 hm hget
          exact hhead m step1 (fun m1 hm1 h1 => hbefore m1 step1 (by omega) h1) hget
        · rw [hrec, hres]
          congr 1
          omega
      · right
        refine ⟨?_, by rw [hrec, hres]⟩
        intro m step1 hget
        exact hhead m step1 (fun m1 _ h1 => hall m1 step1 h1) hget

/-- C22: for every step list and every index `i`, `showStep(i)` returns, and it
either displays step `j`, the least index `j ≥ i` whose target exists, or, when
no index from `i` on has a target (as when `i ≥ N`), ends the tour.  So the
step in the tooltip and the highlighted element always have a live target. -/
theorem showStep_shows_first_step_with_target (dom : String → Bool) (s : OnboardingManager)
    (i : Nat) :
    ((∃ (j : Nat) (step : TourStep), i ≤ j ∧ s.tourSteps[j]? = some step ∧
        dom step.target = true ∧
        (∀ (k : Nat) (step1 : TourStep), i ≤ k → k < j → s.tourSteps[k]? = some step1 →
          dom step1.target = false) ∧
        showStep dom s i = showTooltip (highlightElement s step.target) j) ∨
      ((∀ (k : Nat) (step1 : TourStep), i ≤ k → s.tourSteps[k]? = some step1 →
          dom step1.target = false) ∧
        showStep dom s i = endTour s)) ∧
    (∀ (j : Nat), (showStep dom s i).tooltip = some j →
      ∃ (step : TourStep), s.tourSteps[j]? = some step ∧ dom step.target = true) ∧
    (∀ (target : String), (showStep dom s i).highlighted = some target →
      dom target = true) := by
  have key : (∃ (j : Nat) (step : TourStep), i ≤ j ∧ s.tourSteps[j]? = some step ∧
        dom step.target = true ∧
        (∀ (k : Nat) (step1 : TourStep), i ≤ k → k < j → s.tourSteps[k]? = some step1 →
          dom step1.target = false) ∧
        showStep dom s i = showTooltip (highlightElement s step.target) j) ∨
      ((∀ (k : Nat) (step1 : TourStep), i ≤ k → s.tourSteps[k]? = some step1 →
          dom step1.target = false) ∧
        showStep dom s i = endTour s) := by
    unfold showStep
    rcases showStepFrom_cases dom s (s.tourSteps.drop i) i with
      ⟨k, st, hk, hst, hbefore, hres⟩ | ⟨hall, hres⟩
    · left
      refine ⟨i + k, st, Nat.le_add_right i k, ?_, hst, ?_, hres⟩
      · rw [← hk, List.getElem?_drop]
      · intro k1 step1 h1 h2 hget
        refine hbefore (k1 - i) step1 (by omega) ?_
        rw [List.getElem?_drop, ← hget]
        congr 1
        omega
    · right
      refine ⟨?_, hres⟩
      intro k1 step1 h1 hget
      refine hall (k1 - i) step1 ?_
      rw [List.getElem?_drop, ← hget]
      congr 1
      omega
  refine ⟨key, ?_, ?_⟩
  · intro j hj
    rcases key with ⟨j1, st, -, hget, hst, -, hres⟩ | ⟨-, hres⟩
    · rw [hres] at hj
      simp only [showTooltip, Option.some.injEq] at hj
      subst hj
      exact ⟨st, hget, hst⟩
    · rw [hres] at hj
      simp [endTour, showMessage] at hj
  · intro target ht
    rcases key with ⟨j1, st, -, -, hst, -, hres⟩ | ⟨-, hres⟩
    · rw [hres] at ht
      simp only [showTooltip, highlightElement, Option.some.injEq] at ht
      subst ht
      exact hst
    · rw [hres] at ht
      simp [endTour, showMessage] at ht

theorem endTour_fields (s : OnboardingManager) :
    (endTour s).isActive = false ∧ (endTour s).overlay = false ∧
    (endTour s).completedFlag = some "true" ∧ (endTour s).tooltip = none ∧
    (endTour s).highlighted = none ∧
    (endTour s).messages = s.messages ++ [(tourCompletedText, "success")] := by
  unfold endTour showMessage
  dsimp only
  split <;> simp_all

/-- C23, evaluated on the code: `endTour()` on a fresh manager leaves the tour
inactive, no overlay and the completion flag at `true`, and shows the
completion message; a second `endTour()` shows the completion message again,
so the state after it differs from the state before it. -/
theorem endTour_twice_repeats_the_message :
    (endTour (fresh none)).isActive = false ∧ (endTour (fresh none)).overlay = false ∧
    (endTour (fresh none)).completedFlag = some "true" ∧
    completions (endTour (fresh none)) = 1 ∧
    completions (endTour (endTour (fresh none))) = 2 ∧
    endTour (endTour (fresh none)) ≠ endTour (fresh none) := by
  decide

/-- C27, evaluated on the code: on the dashboard page whose second target
`[data-tour="gpa-cards"]` is missing, `startTour()` displays step 0, the
first `nextStep()` skips step 1 and displays step 2, and the second
`nextStep()` displays step 2 again while the tour is still active. -/
theorem nextStep_shows_the_same_step_again :
    (startTour (domWithout ["[data-tour=\"gpa-cards\"]"]) (fresh none)
      "/student/dashboard/").tooltip = some 0 ∧
    (nextSteps (domWithout ["[data-tour=\"gpa-cards\"]"])
      (startTour (domWithout ["[data-tour=\"gpa-cards\"]"]) (fresh none) "/student/dashboard/")
      1).tooltip = some 2 ∧
    (nextSteps (domWithout ["[data-tour=\"gpa-cards\"]"])
      (startTour (domWithout ["[data-tour=\"gpa-cards\"]"]) (fresh none) "/student/dashboard/")
      2).tooltip = some 2 ∧
    (nextSteps (domWithout ["[data-tour=\"gpa-cards\"]"])
      (startTour (domWithout ["[data-tour=\"gpa-cards\"]"]) (fresh none) "/student/dashboard/")
      2).isActive = true ∧
    completions (nextSteps (domWithout ["[data-tour=\"gpa-cards\"]"])
      (startTour (domWithout ["[data-tour=\"gpa-cards\"]"]) (fresh none) "/student/dashboard/")
      2) = 0 := by
  decide


/-- C29: for every target rectangle, tooltip size, preferred side and viewport
size, the `top` and `left` computed by `positionTooltip` are both at least 10;
and in each dimension where the viewport is at least the tooltip size plus 20,
`top ≤ innerHeight - tooltipHeight - 10` and
`left ≤ innerWidth - tooltipWidth - 10`. -/
theorem positionTooltip_stays_in_viewport (targetRect tooltipRect : Rect) (position : String)
    (innerWidth innerHeight : ℚ) :
    10 ≤ (positionTooltip targetRect tooltipRect position innerWidth innerHeight).1 ∧
    10 ≤ (positionTooltip targetRect tooltipRect position innerWidth innerHeight).2 ∧
    (tooltipRect.height + 20 ≤ innerHeight →
      (positionTooltip targetRect tooltipRect position innerWidth innerHeight).1 ≤
        innerHeight - tooltipRect.height - 10) ∧
    (tooltipRect.width + 20 ≤ innerWidth →
      (positionTooltip targetRect tooltipRect position innerWidth innerHeight).2 ≤
        innerWidth - tooltipRect.width - 10) := by
  unfold positionTooltip
  refine ⟨le_max_left _ _, le_max_left _ _, fun h => ?_, fun h => ?_⟩
  · exact max_le (by linarith) (min_le_right _ _)
  · exact max_le (by linarith) (min_le_right _ _)

/-- Witness for C29: a 300 by 120 tooltip preferred above a target at the top
of a 1024 by 768 viewport. -/
theorem positionTooltip_stays_in_viewport_witness :
    (positionTooltip { top := 5, left := 900, bottom := 45, right := 1000, width := 100, height := 40 }
        { top := 0, left := 0, bottom := 120, right := 300, width := 300, height := 120 } "top"
        1024 768).1 ≤ 768 - 120 - 10 ∧
    (positionTooltip { top := 5, left := 900, bottom := 45, right := 1000, width := 100, height := 40 }
        { top := 0, left := 0, bottom := 120, right := 300, width := 300, height := 120 } "top"
        1024 768).2 ≤ 1024 - 300 - 10 :=
  ⟨(positionTooltip_stays_in_viewport
      { top := 5, left := 900, bottom := 45, right := 1000, width := 100, height := 40 }
      { top := 0, left := 0, bottom := 120, right := 300, width := 300, height := 120 } "top"
      1024 768).2.2.1 (by norm_num),
   (positionTooltip_stays_in_viewport
      { top := 5, left := 900, bottom := 45, right := 1000, width := 100, height := 40 }
      { top := 0, left := 0, bottom := 120, right := 300, width := 300, height := 120 } "top"
      1024 768).2.2.2 (by norm_num)⟩

end OnboardingManager
